import Mathlib

/-!
# Verification of the MCP client manager core

Shallow embedding of the `MCPClientManager` class (connection record store,
lifecycle manager with its reconnect state machine, and the fan-out query
engine) together with proofs of the specification's claims about it.

External collaborators are modelled as oracles: the SDK `Client`'s
`connect` / `listTools` / `callTool` / ... calls are inputs describing the
outcome of each remote invocation, and JavaScript objects (clients,
transports) are identified by numeric handles.  Remote list items and
responses are opaque and modelled by `Nat`.
-/

namespace MCPClientManager

/-- A JavaScript `Error` value: either a plain `new Error(message)` constructed
by the manager itself, or an opaque error produced by an external collaborator
(the SDK client or the transport).  The manager's `catch` blocks coerce
non-`Error` throwables with `new Error(String(error))`; we only ever feed it
`Error` values, for which the coercion is the identity. -/
inductive JsError where
  | basic (message : String)
  | ext (code : Nat)
  deriving DecidableEq, Repr

/-- The `AggregateError(errors, message)` thrown by the fan-out queries. -/
structure AggregateError where
  errors : List JsError
  message : String
  deriving DecidableEq, Repr

/-- Events emitted through the `EventEmitter` base class, with the payload
fields of `MCPClientManagerEvents` from `types.ts`. -/
inductive Event where
  | serverAdded (clientId : String) (serverName : String)
  | connectionError (serverName : String) (error : JsError)
  | transportError (clientId : String) (serverName : String) (error : JsError)
  | transportClosed (clientId : String) (serverName : String)
  | clientReconnected (clientId : String) (serverName : String)
  | reconnectionError (clientId : String) (error : JsError)
  | closeError (clientId : String) (error : JsError)
  | clientRemoved (clientId : String) (serverName : String)
  | operationError (operation : String) (clientId : String) (serverName : String) (error : JsError)
  deriving DecidableEq, Repr

/-- `MCPClientManagerConfig`: every field is optional in TypeScript, so each
field is an `Option` (with `none` standing for `undefined`). -/
structure ManagerConfig where
  defaultTimeout : Option Nat
  autoReconnect : Option Bool
  maxReconnectAttempts : Option Nat
  reconnectDelay : Option Nat
  debug : Option Bool
  deriving DecidableEq, Repr

/-- A `Partial<MCPClientManagerConfig>` as passed to the constructor.  The
outer `Option` records whether the property is present on the object at all
(object spread only overrides present properties); the inner `Option` is the
property's value, which may itself be `undefined`. -/
structure PartialManagerConfig where
  defaultTimeout : Option (Option Nat) := none
  autoReconnect : Option (Option Bool) := none
  maxReconnectAttempts : Option (Option Nat) := none
  reconnectDelay : Option (Option Nat) := none
  debug : Option (Option Bool) := none
  deriving DecidableEq, Repr

/-- The `DEFAULT_MANAGER_CONFIG` constant. -/
def DEFAULT_MANAGER_CONFIG : ManagerConfig :=
  { defaultTimeout := some 30000
    autoReconnect := some false
    maxReconnectAttempts := some 3
    reconnectDelay := some 5000
    debug := some false }

/-- The constructor's `{ ...DEFAULT_MANAGER_CONFIG, ...config }` merge: a
property present on `config` (even with value `undefined`) overrides the
default. -/
def mergeConfig (config : PartialManagerConfig) : ManagerConfig :=
  { defaultTimeout := config.defaultTimeout.getD DEFAULT_MANAGER_CONFIG.defaultTimeout
    autoReconnect := config.autoReconnect.getD DEFAULT_MANAGER_CONFIG.autoReconnect
    maxReconnectAttempts := config.maxReconnectAttempts.getD DEFAULT_MANAGER_CONFIG.maxReconnectAttempts
    reconnectDelay := config.reconnectDelay.getD DEFAULT_MANAGER_CONFIG.reconnectDelay
    debug := config.debug.getD DEFAULT_MANAGER_CONFIG.debug }

/-- JavaScript truthiness of an optional number: `undefined` and `0` are falsy. -/
def jsTruthyNat : Option Nat → Bool
  | none => false
  | some n => n != 0

/-- JavaScript `a || b` on optional numbers. -/
def jsOrNat (a b : Option Nat) : Option Nat :=
  if jsTruthyNat a then a else b

/-- JavaScript truthiness of an optional boolean. -/
def jsTruthyBool : Option Bool → Bool
  | none => false
  | some b => b

/-- The expression `this.config.maxReconnectAttempts || 0` (its value is a
number; `undefined` and `0` both yield `0`). -/
def maxAttemptsOrZero (cfg : ManagerConfig) : Nat :=
  (cfg.maxReconnectAttempts).getD 0

/-- One entry of the `clients` map (the `ClientInfo` interface).  The `client`
and `transport` object references are modelled by numeric handles standing for
object identity. -/
structure ClientRecord where
  clientHandle : Nat
  serverName : String
  transportHandle : Nat
  connected : Bool
  error : Option JsError
  deriving DecidableEq, Repr

/-- An active `setTimeout` handle stored in `reconnectTimers`, together with
the `attemptCount` captured by the scheduled callback's closure. -/
structure PendingTimer where
  timerId : Nat
  attempt : Nat
  deriving DecidableEq, Repr

/-- The mutable state of one `MCPClientManager` instance.  `clients` and
`reconnectTimers` are JavaScript `Map`s, modelled as insertion-ordered
association lists with unique keys; `serverNames` is a `Set`.
`nextClientId` is the id counter; `nextTimerId` and `nextHandle` are
allocators modelling the identity of `setTimeout` handles and of freshly
constructed SDK `Client` objects.  `reconnectTimers` holds the timers that
are still active (a `clearTimeout`-cancelled or already-fired handle can
never fire, so it is dropped from the model even where the source leaves the
stale handle in the map). -/
structure Manager where
  clients : List (String × ClientRecord)
  serverNames : List String
  nextClientId : Nat
  config : ManagerConfig
  reconnectTimers : List (String × PendingTimer)
  nextTimerId : Nat
  nextHandle : Nat
  deriving DecidableEq, Repr

/-- The `MCPClientManager` constructor. -/
def mkManager (config : PartialManagerConfig) : Manager :=
  { clients := []
    serverNames := []
    nextClientId := 1
    config := mergeConfig config
    reconnectTimers := []
    nextTimerId := 0
    nextHandle := 0 }

/-- `Map.prototype.get`. -/
def mapFind {β : Type} (m : List (String × β)) (k : String) : Option β :=
  match m.find? (fun p => p.1 == k) with
  | none => none
  | some p => some p.2

/-- `Map.prototype.set`: update in place if the key exists (keeping its
insertion position), otherwise append. -/
def mapSet {β : Type} (m : List (String × β)) (k : String) (v : β) :
    List (String × β) :=
  if m.any (fun p => p.1 == k) then
    m.map (fun p => if p.1 == k then (k, v) else p)
  else m ++ [(k, v)]

/-- `Map.prototype.delete` (keys are unique, so filtering equals erasing). -/
def mapErase {β : Type} (m : List (String × β)) (k : String) :
    List (String × β) :=
  m.filter (fun p => p.1 != k)

/-- The template literal `client-${n}` used to form client identifiers. -/
def mkClientId (n : Nat) : String :=
  "client-" ++ Nat.repr n

/-- Result of one manager method call: its return (or thrown) value, the
manager state afterwards, and the events emitted during the call, in order. -/
structure StepResult (α : Type) where
  result : α
  state : Manager
  events : List Event
  deriving DecidableEq, Repr

/-- The `addServer` method.  `connectOutcome` is the oracle for the awaited
`client.connect(transport)` handshake.  The duplicate-name check happens
before the id counter is touched; the counter is incremented and a fresh
`Client` object allocated before the handshake is attempted. -/
def addServer (s : Manager) (transportHandle : Nat) (serverName : String)
    (connectOutcome : Except JsError Unit) : StepResult (Except JsError String) :=
  if s.serverNames.contains serverName then
    { result := .error (.basic ("Server \"" ++ serverName ++
        "\" already exists. Each server must have a unique name."))
      state := s
      events := [] }
  else
    let clientId := mkClientId s.nextClientId
    let s1 := { s with nextClientId := s.nextClientId + 1 }
    let client := s1.nextHandle
    let s2 := { s1 with nextHandle := s1.nextHandle + 1 }
    match connectOutcome with
    | .error e =>
      { result := .error e
        state := s2
        events := [.connectionError serverName e] }
    | .ok _ =>
      { result := .ok clientId
        state := { s2 with
          clients := mapSet s2.clients clientId
            { clientHandle := client
              serverName := serverName
              transportHandle := transportHandle
              connected := true
              error := none }
          serverNames := s2.serverNames ++ [serverName] }
        events := [.serverAdded clientId serverName] }

/-- The `scheduleReconnect` method body up to (and excluding) the deferred
callback: cancel any existing timer for the client, bail out once
`attemptCount >= (maxReconnectAttempts || 0)`, otherwise register a fresh
timer remembering `attemptCount`. -/
def scheduleReconnect (s : Manager) (clientId : String) (attemptCount : Nat) : Manager :=
  let s1 := { s with reconnectTimers := mapErase s.reconnectTimers clientId }
  if attemptCount ≥ maxAttemptsOrZero s.config then s1
  else
    { s1 with
      reconnectTimers := s1.reconnectTimers ++
        [(clientId, { timerId := s1.nextTimerId, attempt := attemptCount })]
      nextTimerId := s1.nextTimerId + 1 }

/-- The `reconnectClient` method.  `connectOutcome` is the oracle for the
awaited `client.connect(clientInfo.transport)` call of the brand-new client. -/
def reconnectClient (s : Manager) (clientId : String)
    (connectOutcome : Except JsError Unit) : StepResult Bool :=
  match mapFind s.clients clientId with
  | none => { result := false, state := s, events := [] }
  | some info =>
    if info.connected then { result := true, state := s, events := [] }
    else
      let client := s.nextHandle
      let s1 := { s with nextHandle := s.nextHandle + 1 }
      match connectOutcome with
      | .ok _ =>
        let info' := { info with clientHandle := client, connected := true, error := none }
        { result := true
          state := { s1 with clients := mapSet s1.clients clientId info' }
          events := [.clientReconnected clientId info.serverName] }
      | .error e =>
        { result := false
          state := s1
          events := [.reconnectionError clientId e] }

/-- The `removeClient` method.  `closeOutcome` is the oracle for
`clientInfo.transport.close()`; it is consulted only when the record is still
connected, and a close failure is emitted as `closeError` without preventing
removal. -/
def removeClient (s : Manager) (id : String)
    (closeOutcome : Except JsError Unit) : StepResult Bool :=
  match mapFind s.clients id with
  | none => { result := false, state := s, events := [] }
  | some info =>
    let s1 := { s with reconnectTimers := mapErase s.reconnectTimers id }
    let s2 := { s1 with serverNames := s1.serverNames.filter (fun n => n != info.serverName) }
    let closeEvents :=
      if info.connected then
        match closeOutcome with
        | .ok _ => ([] : List Event)
        | .error e => [Event.closeError id e]
      else []
    { result := true
      state := { s2 with clients := mapErase s2.clients id }
      events := closeEvents ++ [.clientRemoved id info.serverName] }

/-- The `transport.onclose` handler installed by
`setupTransportErrorHandling`: mark the record disconnected, emit
`transportClosed`, and — only when `config.autoReconnect` is truthy — start
the reconnect state machine at attempt `0`. -/
def onTransportClose (s : Manager) (clientId : String) : Manager × List Event :=
  match mapFind s.clients clientId with
  | none => (s, [])
  | some info =>
    let s1 := { s with clients := mapSet s.clients clientId { info with connected := false } }
    if jsTruthyBool s.config.autoReconnect then
      (scheduleReconnect s1 clientId 0, [.transportClosed clientId info.serverName])
    else
      (s1, [.transportClosed clientId info.serverName])

/-- The `transport.onerror` handler installed by
`setupTransportErrorHandling`: record `lastError` and emit `transportError`
without touching the connection state. -/
def onTransportError (s : Manager) (clientId : String) (e : JsError) :
    Manager × List Event :=
  match mapFind s.clients clientId with
  | none => (s, [])
  | some info =>
    ({ s with clients := mapSet s.clients clientId { info with error := some e } },
     [.transportError clientId info.serverName e])

/-- The body of the callback passed to `setTimeout` by `scheduleReconnect`:
run `reconnectClient`, and when it fails while `autoReconnect` is truthy,
reschedule with the incremented attempt count.  The callback runs only while
its timer is still active (a cancelled handle never fires), and firing
consumes the timer. -/
def fireReconnectTimer (s : Manager) (clientId : String)
    (connectOutcome : Except JsError Unit) : Manager × List Event :=
  match mapFind s.reconnectTimers clientId with
  | none => (s, [])
  | some t =>
    let s0 := { s with reconnectTimers := mapErase s.reconnectTimers clientId }
    let r := reconnectClient s0 clientId connectOutcome
    if !r.result && jsTruthyBool s0.config.autoReconnect then
      (scheduleReconnect r.state clientId (t.attempt + 1), r.events)
    else
      (r.state, r.events)

/-- Runs `n` consecutive reconnect timer firings for `clientId`, each of whose
connect attempts fails with `e`, collecting the emitted events. -/
def runFailures (clientId : String) (e : JsError) : Nat → Manager → Manager × List Event
  | 0, s => (s, [])
  | n + 1, s =>
    let r := fireReconnectTimer s clientId (.error e)
    let rest := runFailures clientId e n r.1
    (rest.1, r.2 ++ rest.2)

/-- The reconnect timers currently active for a given client id. -/
def activeTimersFor (s : Manager) (clientId : String) : List (String × PendingTimer) :=
  s.reconnectTimers.filter (fun p => p.1 == clientId)

/-- Outcome of one remote list call (`client.listPrompts` / `listResources` /
`listTools`): the call may throw, or return a response whose relevant field is
an array of items, or a response whose relevant field is not an array (the
source guards with `Array.isArray` and then silently contributes nothing).
Items are opaque and modelled by `Nat`. -/
inductive RemoteListResult where
  | items (its : List Nat)
  | nonArray
  | err (e : JsError)
  deriving DecidableEq, Repr

/-- Accumulated outcome of one aggregating pass over the `clients` map:
the updated map (failures store `lastError` on the record), the unioned
item list, the collected `{clientId, error}` pairs, the emitted events and
the ids whose remote operation was actually invoked — each in visitation
order. -/
structure AggPass where
  clients : List (String × ClientRecord)
  collected : List Nat
  errors : List (String × JsError)
  events : List Event
  invoked : List (String × Option Nat)
  deriving DecidableEq, Repr

/-- The shared `for (const [id, clientInfo] of this.clients.entries())` loop
of `listPrompts` / `listResources` / `listTools`: skip disconnected records,
otherwise invoke the remote operation with the effective timeout; push items
on success, and on failure store `lastError`, collect the error and emit
`operationError`. -/
def aggregateGo (opName : String) (remote : String → Option Nat → RemoteListResult)
    (effectiveTimeout : Option Nat) :
    List (String × ClientRecord) → AggPass
  | [] => { clients := [], collected := [], errors := [], events := [], invoked := [] }
  | (id, info) :: rest =>
    if info.connected then
      match remote id effectiveTimeout with
      | .items its =>
        let o := aggregateGo opName remote effectiveTimeout rest
        { o with clients := (id, info) :: o.clients
                 collected := its ++ o.collected
                 invoked := (id, effectiveTimeout) :: o.invoked }
      | .nonArray =>
        let o := aggregateGo opName remote effectiveTimeout rest
        { o with clients := (id, info) :: o.clients
                 invoked := (id, effectiveTimeout) :: o.invoked }
      | .err e =>
        let o := aggregateGo opName remote effectiveTimeout rest
        { o with clients := (id, { info with error := some e }) :: o.clients
                 errors := (id, e) :: o.errors
                 events := .operationError opName id info.serverName e :: o.events
                 invoked := (id, effectiveTimeout) :: o.invoked }
    else
      let o := aggregateGo opName remote effectiveTimeout rest
      { o with clients := (id, info) :: o.clients }

deriving instance DecidableEq for Except

/-- Result of a fan-out query: the returned (or thrown) value, the manager
state afterwards, the events emitted, in order, and — as pure
instrumentation of the awaited remote calls — which client ids were actually
invoked and with which timeout, in visitation order. -/
structure QueryOut (α : Type) where
  result : Except AggregateError α
  state : Manager
  events : List Event
  invoked : List (String × Option Nat)
  deriving DecidableEq, Repr

/-- Common shape of `listPrompts` / `listResources` / `listTools`: compute the
effective timeout as `timeout || this.config.defaultTimeout`, run the pass,
and throw `AggregateError` exactly when `errors.length > 0` and the collected
list is empty. -/
def aggregateQuery (opName failMessage : String)
    (remote : String → Option Nat → RemoteListResult)
    (timeout : Option Nat) (s : Manager) : QueryOut (List Nat) :=
  let o := aggregateGo opName remote (jsOrNat timeout s.config.defaultTimeout) s.clients
  let s' := { s with clients := o.clients }
  if 0 < o.errors.length ∧ o.collected.length = 0 then
    { result := .error { errors := o.errors.map (fun p => p.2), message := failMessage }
      state := s'
      events := o.events
      invoked := o.invoked }
  else
    { result := .ok o.collected, state := s', events := o.events, invoked := o.invoked }

/-- The `listPrompts` method. -/
def listPrompts (remote : String → Option Nat → RemoteListResult)
    (timeout : Option Nat) (s : Manager) : QueryOut (List Nat) :=
  aggregateQuery "listPrompts" "Failed to list prompts from all clients" remote timeout s

/-- The `listResources` method. -/
def listResources (remote : String → Option Nat → RemoteListResult)
    (timeout : Option Nat) (s : Manager) : QueryOut (List Nat) :=
  aggregateQuery "listResources" "Failed to list resources from all clients" remote timeout s

/-- The `listTools` method. -/
def listTools (remote : String → Option Nat → RemoteListResult)
    (timeout : Option Nat) (s : Manager) : QueryOut (List Nat) :=
  aggregateQuery "listTools" "Failed to list tools from all clients" remote timeout s

/-- Accumulated outcome of one first-responder pass: the first successful
response (if any), and the errors, events and invoked ids, in visitation
order.  The loop returns on the first success, so nothing after it is
invoked. -/
structure FirstPass where
  found : Option Nat
  errors : List (String × JsError)
  events : List Event
  invoked : List (String × Option Nat)
  deriving DecidableEq, Repr

/-- The shared loop of `getPrompt` / `readResource` / `callTool`: skip
disconnected records, return immediately on the first successful remote call,
and on failure collect the error, emit `operationError` and continue.
Responses are opaque and modelled by `Nat`. -/
def firstResponderGo (opName : String) (remote : String → Option Nat → Except JsError Nat)
    (effectiveTimeout : Option Nat) :
    List (String × ClientRecord) → FirstPass
  | [] => { found := none, errors := [], events := [], invoked := [] }
  | (id, info) :: rest =>
    if info.connected then
      match remote id effectiveTimeout with
      | .ok v =>
        { found := some v, errors := [], events := [], invoked := [(id, effectiveTimeout)] }
      | .error e =>
        let o := firstResponderGo opName remote effectiveTimeout rest
        { o with errors := (id, e) :: o.errors
                 events := .operationError opName id info.serverName e :: o.events
                 invoked := (id, effectiveTimeout) :: o.invoked }
    else firstResponderGo opName remote effectiveTimeout rest

/-- The timeout stored into `args.timeout` by `getPrompt`: an explicitly
passed truthy `timeout` wins; otherwise a truthy configured default is used
when `args.timeout` is falsy; otherwise `args.timeout` is left as given. -/
def getPromptTimeout (timeout argsTimeout dflt : Option Nat) : Option Nat :=
  if jsTruthyNat timeout then timeout
  else if jsTruthyNat dflt && !jsTruthyNat argsTimeout then dflt
  else argsTimeout

/-- The timeout plumbing of `readResource` and `callTool`:
`timeout || default` is stored into the request only when that value is
itself truthy. -/
def guardedTimeout (timeout dflt : Option Nat) : Option Nat :=
  if jsTruthyNat (jsOrNat timeout dflt) then jsOrNat timeout dflt else none

/-- The `getPrompt` method.  First-responder queries never mutate the client
records, so the state is returned unchanged. -/
def getPrompt (remote : String → Option Nat → Except JsError Nat)
    (promptName : String) (argsTimeout : Option Nat) (timeout : Option Nat)
    (s : Manager) : QueryOut Nat :=
  let o := firstResponderGo "getPrompt" remote
    (getPromptTimeout timeout argsTimeout s.config.defaultTimeout) s.clients
  match o.found with
  | some v => { result := .ok v, state := s, events := o.events, invoked := o.invoked }
  | none =>
    { result := .error
        { errors := o.errors.map (fun p => p.2)
          message := "Prompt \"" ++ promptName ++ "\" not found in any client" }
      state := s
      events := o.events
      invoked := o.invoked }

/-- The `readResource` method. -/
def readResource (remote : String → Option Nat → Except JsError Nat)
    (resourceUri : String) (timeout : Option Nat) (s : Manager) : QueryOut Nat :=
  let o := firstResponderGo "readResource" remote
    (guardedTimeout timeout s.config.defaultTimeout) s.clients
  match o.found with
  | some v => { result := .ok v, state := s, events := o.events, invoked := o.invoked }
  | none =>
    { result := .error
        { errors := o.errors.map (fun p => p.2)
          message := "Resource \"" ++ resourceUri ++ "\" not found in any client" }
      state := s
      events := o.events
      invoked := o.invoked }

/-- The `callTool` method. -/
def callTool (remote : String → Option Nat → Except JsError Nat)
    (toolName : String) (timeout : Option Nat) (s : Manager) : QueryOut Nat :=
  let o := firstResponderGo "callTool" remote
    (guardedTimeout timeout s.config.defaultTimeout) s.clients
  match o.found with
  | some v => { result := .ok v, state := s, events := o.events, invoked := o.invoked }
  | none =>
    { result := .error
        { errors := o.errors.map (fun p => p.2)
          message := "Tool \"" ++ toolName ++ "\" not found in any client" }
      state := s
      events := o.events
      invoked := o.invoked }

/-- Structural specification of the decimal digit list produced by
`Nat.toDigits 10`, used below to prove that distinct counter values always
yield distinct `client-${n}` identifiers. -/
def repSpec (n : Nat) : List Char :=
  if _h : n < 10 then [Nat.digitChar n]
  else repSpec (n / 10) ++ [Nat.digitChar (n % 10)]
termination_by n
decreasing_by exact Nat.div_lt_self (by omega) (by omega)

/-- The merged configuration of a manager constructed with no arguments. -/
def defaultConfig : ManagerConfig := mergeConfig {}

/-- A freshly constructed manager with no registered servers. -/
def emptyManager : Manager := mkManager {}

/-- A sample client record used by concrete witnesses. -/
def exRecord (name : String) (connected : Bool) : ClientRecord :=
  { clientHandle := 0
    serverName := name
    transportHandle := 0
    connected := connected
    error := none }

/-- A sample manager holding two connected records, in insertion order
`client-1` (server `alpha`) then `client-2` (server `beta`). -/
def exManagerTwo : Manager :=
  { clients := [("client-1", exRecord "alpha" true), ("client-2", exRecord "beta" true)]
    serverNames := ["alpha", "beta"]
    nextClientId := 3
    config := defaultConfig
    reconnectTimers := []
    nextTimerId := 0
    nextHandle := 2 }

/-- A sample manager with auto-reconnect enabled holding one connected
record. -/
def exManagerAuto : Manager :=
  { clients := [("client-1", exRecord "alpha" true)]
    serverNames := ["alpha"]
    nextClientId := 2
    config := mergeConfig { autoReconnect := some (some true) }
    reconnectTimers := []
    nextTimerId := 0
    nextHandle := 1 }

/-- A sample manager with one disconnected record. -/
def exManagerDisc : Manager :=
  { clients := [("client-1", exRecord "alpha" false)]
    serverNames := ["alpha"]
    nextClientId := 2
    config := defaultConfig
    reconnectTimers := []
    nextTimerId := 0
    nextHandle := 1 }

/-- A sample remote-list oracle: `client-1` succeeds with an empty item list,
every other client throws. -/
def exRemoteEmptyThenFail : String → Option Nat → RemoteListResult :=
  fun id _ => if id == "client-1" then .items [] else .err (.ext 7)

/-- A sample remote-list oracle: `client-1` succeeds with one item, `client-2`
throws. -/
def exRemoteOneThenFail : String → Option Nat → RemoteListResult :=
  fun id _ => if id == "client-1" then .items [42] else .err (.ext 7)

/-- A sample first-responder oracle: `client-1` fails, `client-2` succeeds. -/
def exRemoteFailThenOk : String → Option Nat → Except JsError Nat :=
  fun id _ => if id == "client-1" then .error (.ext 5) else .ok 99

/-- A sample first-responder oracle that always fails. -/
def exRemoteAllFail : String → Option Nat → Except JsError Nat :=
  fun _ _ => .error (.ext 5)

/-- The pass an aggregating query performs over the store: `aggregateGo` at
the effective timeout `timeout || config.defaultTimeout`. -/
def aggPassOf (opName : String) (remote : String → Option Nat → RemoteListResult)
    (timeout : Option Nat) (s : Manager) : AggPass :=
  aggregateGo opName remote (jsOrNat timeout s.config.defaultTimeout) s.clients

/-- The connected entries of a client map, in insertion order. -/
def connectedEntries (l : List (String × ClientRecord)) : List (String × ClientRecord) :=
  l.filter (fun p => p.2.connected)

/-- Items contributed by one remote list response (nothing unless the
relevant field is an array). -/
def itemsOf : RemoteListResult → List Nat
  | .items its => its
  | .nonArray => []
  | .err _ => []

/-- The error of a failed remote call (junk on success; only ever used under
a failure hypothesis). -/
def errOf : Except JsError Nat → JsError
  | .error e => e
  | .ok _ => .basic ""

/-- Whether a remote list call threw. -/
def isErrRemote : RemoteListResult → Bool
  | .err _ => true
  | _ => false

/-- The error thrown by a remote list call (junk when it did not throw). -/
def errOfRemote : RemoteListResult → JsError
  | .err e => e
  | _ => .basic ""

/-- A sample manager holding a disconnected record `client-1` (server
`alpha`) followed by a connected record `client-2` (server `beta`). -/
def exManagerMixed : Manager :=
  { clients := [("client-1", exRecord "alpha" false), ("client-2", exRecord "beta" true)]
    serverNames := ["alpha", "beta"]
    nextClientId := 3
    config := defaultConfig
    reconnectTimers := []
    nextTimerId := 0
    nextHandle := 2 }

/-- The `{clientId, error}` payload of an `operationError` event (junk on any
other event). -/
def operationErrorData : Event → String × JsError
  | .operationError _ clientId _ e => (clientId, e)
  | _ => ("", .basic "")

/-- Whether an event is an `operationError` for the given operation name. -/
def isOperationErrorOf (opName : String) : Event → Bool
  | .operationError o _ _ _ => o == opName
  | _ => false

/-- Well-formedness of the id assignment: every key of the `clients` map was
minted by a past `addServer` from a counter value below the current one. -/
def ClientIdsWF (s : Manager) : Prop :=
  ∀ p ∈ s.clients, ∃ k, k < s.nextClientId ∧ p.1 = mkClientId k

/-! ## Utility lemmas -/

theorem find?_eq_head?_filter {α : Type} (p : α → Bool) :
    ∀ l : List α, l.find? p = (l.filter p).head? := by
  intro l
  induction l with
  | nil => rfl
  | cons a l ih =>
    by_cases h : p a
    · rw [List.find?_cons_of_pos _ h, List.filter_cons_of_pos h]
      rfl
    · rw [List.find?_cons_of_neg _ h, List.filter_cons_of_neg h]
      exact ih

/-! ## Injectivity of the `client-${n}` identifier scheme -/

theorem digitChar_inj_lt : ∀ a < 10, ∀ b < 10, Nat.digitChar a = Nat.digitChar b → a = b := by
  decide

theorem repSpec_lt (n : Nat) (h : n < 10) : repSpec n = [Nat.digitChar n] := by
  rw [repSpec, dif_pos h]

theorem repSpec_ge (n : Nat) (h : ¬ n < 10) :
    repSpec n = repSpec (n / 10) ++ [Nat.digitChar (n % 10)] := by
  rw [repSpec, dif_neg h]

theorem repSpec_ne_nil (n : Nat) : repSpec n ≠ [] := by
  by_cases h : n < 10
  · rw [repSpec_lt n h]
    exact List.cons_ne_nil _ _
  · rw [repSpec_ge n h]
    intro hh
    exact absurd (List.append_eq_nil.mp hh).2 (List.cons_ne_nil _ _)

theorem repSpec_inj : ∀ a : Nat, ∀ b : Nat, repSpec a = repSpec b → a = b := by
  intro a
  induction a using Nat.strong_induction_on with
  | _ a ih =>
    intro b h
    by_cases ha : a < 10
    · by_cases hb : b < 10
      · rw [repSpec_lt a ha, repSpec_lt b hb] at h
        simp only [List.cons.injEq, and_true] at h
        exact digitChar_inj_lt a ha b hb h
      · rw [repSpec_lt a ha, repSpec_ge b hb] at h
        have h' : ([] : List Char) ++ [Nat.digitChar a]
            = repSpec (b / 10) ++ [Nat.digitChar (b % 10)] := by simpa using h
        exact absurd (List.append_inj' h' rfl).1.symm (repSpec_ne_nil _)
    · by_cases hb : b < 10
      · rw [repSpec_ge a ha, repSpec_lt b hb] at h
        have h' : repSpec (a / 10) ++ [Nat.digitChar (a % 10)]
            = ([] : List Char) ++ [Nat.digitChar b] := by simpa using h
        exact absurd (List.append_inj' h' rfl).1 (repSpec_ne_nil _)
      · rw [repSpec_ge a ha, repSpec_ge b hb] at h
        have h2 := List.append_inj' h rfl
        have hdiv : a / 10 = b / 10 :=
          ih (a / 10) (Nat.div_lt_self (by omega) (by omega)) (b / 10) h2.1
        have hmod : a % 10 = b % 10 := by
          have h3 := h2.2
          simp only [List.cons.injEq, and_true] at h3
          exact digitChar_inj_lt _ (Nat.mod_lt a (by omega)) _ (Nat.mod_lt b (by omega)) h3
        omega

theorem toDigitsCore_eq_repSpec :
    ∀ (fuel n : Nat) (ds : List Char), n < fuel →
      Nat.toDigitsCore 10 fuel n ds = repSpec n ++ ds := by
  intro fuel
  induction fuel with
  | zero => intro n ds h; exact absurd h (Nat.not_lt_zero n)
  | succ f ih =>
    intro n ds h
    by_cases h10 : n / 10 = 0
    · have hlt : n < 10 := by omega
      simp only [Nat.toDigitsCore, h10, if_true]
      rw [repSpec_lt n hlt, Nat.mod_eq_of_lt hlt]
      rfl
    · have hlt : n / 10 < f := by
        have h1 : n / 10 < n := Nat.div_lt_self (by omega) (by omega)
        omega
      simp only [Nat.toDigitsCore, h10, if_false]
      rw [ih (n / 10) (Nat.digitChar (n % 10) :: ds) hlt]
      rw [repSpec_ge n (by omega : ¬ n < 10)]
      simp

theorem repr_eq_repSpec (n : Nat) : Nat.repr n = (repSpec n).asString := by
  show (Nat.toDigits 10 n).asString = _
  rw [Nat.toDigits, toDigitsCore_eq_repSpec (n + 1) n [] (Nat.lt_succ_self n), List.append_nil]

theorem nat_repr_inj {a b : Nat} (h : Nat.repr a = Nat.repr b) : a = b := by
  rw [repr_eq_repSpec, repr_eq_repSpec] at h
  exact repSpec_inj a b (congrArg String.data h)

theorem string_data_inj {a b : String} (h : a.data = b.data) : a = b :=
  congrArg String.mk h

theorem mkClientId_inj {a b : Nat} (h : mkClientId a = mkClientId b) : a = b := by
  unfold mkClientId at h
  have hd : ("client-" ++ Nat.repr a).data = ("client-" ++ Nat.repr b).data := by rw [h]
  simp only [String.data_append] at hd
  exact nat_repr_inj (string_data_inj (List.append_cancel_left hd))

/-! ## C4: `addServer` on a duplicate name -/

/-- C4: for every manager state and every `serverName` already registered,
`addServer` with that name fails with the duplicate-name error and leaves the
manager state completely unchanged: no id is consumed, no record is created,
and the registered name set is unmodified. -/
theorem addServer_duplicate_unchanged (s : Manager) (transportHandle : Nat)
    (serverName : String) (connectOutcome : Except JsError Unit)
    (h : serverName ∈ s.serverNames) :
    addServer s transportHandle serverName connectOutcome =
      { result := .error (.basic ("Server \"" ++ serverName ++
          "\" already exists. Each server must have a unique name."))
        state := s
        events := [] } := by
  have hc : s.serverNames.contains serverName = true := List.elem_eq_true_of_mem h
  unfold addServer
  rw [if_pos hc]

/-- Witness for C4 at a concrete manager holding server `alpha`. -/
theorem addServer_duplicate_unchanged_witness :
    addServer exManagerTwo 9 "alpha" (.ok ()) =
      { result := .error (.basic ("Server \"" ++ "alpha" ++
          "\" already exists. Each server must have a unique name."))
        state := exManagerTwo
        events := [] } :=
  addServer_duplicate_unchanged exManagerTwo 9 "alpha" (.ok ()) (by decide)

/-! ## C5: `addServer` on a failed handshake -/

/-- C5 counterexample: the claim asserts that a failed `addServer` handshake
reserves or burns no id, but the id counter is incremented before the connect
attempt and never rolled back — on a fresh manager a single failed
`addServer` moves `nextClientId` from 1 to 2, so the candidate id `client-1`
is burned. -/
theorem addServer_failure_burns_id :
    emptyManager.nextClientId = 1 ∧
    (addServer emptyManager 0 "alpha" (.error (.ext 3))).state.nextClientId = 2 := by
  constructor <;> rfl

/-- C5 (amended): on a handshake failure `addServer` emits `connectionError`,
rethrows the underlying error, creates no record, and leaves the server name
unregistered and immediately retryable — but the id counter (and the client
object allocator) is advanced by the failed attempt, so the retry is assigned
the next id rather than the burned one. -/
theorem addServer_failure_amended (s : Manager) (transportHandle : Nat)
    (serverName : String) (e : JsError)
    (h : serverName ∉ s.serverNames) :
    addServer s transportHandle serverName (.error e) =
      { result := .error e
        state := { s with nextClientId := s.nextClientId + 1, nextHandle := s.nextHandle + 1 }
        events := [.connectionError serverName e] }
    ∧ serverName ∉ (addServer s transportHandle serverName (.error e)).state.serverNames
    ∧ (addServer s transportHandle serverName (.error e)).state.clients = s.clients
    ∧ (addServer (addServer s transportHandle serverName (.error e)).state
        transportHandle serverName (.ok ())).result = .ok (mkClientId (s.nextClientId + 1)) := by
  have hc : ¬ (s.serverNames.contains serverName = true) :=
    fun hx => h (List.mem_of_elem_eq_true hx)
  have heq : addServer s transportHandle serverName (.error e) =
      { result := .error e
        state := { s with nextClientId := s.nextClientId + 1, nextHandle := s.nextHandle + 1 }
        events := [.connectionError serverName e] } := by
    unfold addServer
    rw [if_neg hc]
  refine ⟨heq, ?_, ?_, ?_⟩
  · rw [heq]
    exact h
  · rw [heq]
  · rw [heq]
    unfold addServer
    rw [if_neg hc]

/-- Witness for C5 (amended) on a fresh manager. -/
theorem addServer_failure_amended_witness :
    addServer emptyManager 0 "alpha" (.error (.ext 3)) =
      { result := .error (.ext 3)
        state := { emptyManager with nextClientId := 2, nextHandle := 1 }
        events := [.connectionError "alpha" (.ext 3)] }
    ∧ "alpha" ∉ (addServer emptyManager 0 "alpha" (.error (.ext 3))).state.serverNames
    ∧ (addServer emptyManager 0 "alpha" (.error (.ext 3))).state.clients = emptyManager.clients
    ∧ (addServer (addServer emptyManager 0 "alpha" (.error (.ext 3))).state
        0 "alpha" (.ok ())).result = .ok (mkClientId (emptyManager.nextClientId + 1)) :=
  addServer_failure_amended emptyManager 0 "alpha" (.ext 3) (by decide)

/-! ## C10: first-responder queries with no connected record -/

theorem firstResponderGo_nothing_connected (opName : String)
    (remote : String → Option Nat → Except JsError Nat) (eff : Option Nat) :
    ∀ l : List (String × ClientRecord), (∀ p ∈ l, p.2.connected = false) →
      firstResponderGo opName remote eff l =
        { found := none, errors := [], events := [], invoked := [] } := by
  intro l
  induction l with
  | nil => intro _; rfl
  | cons a rest ih =>
    intro h
    obtain ⟨id, info⟩ := a
    have h1 : info.connected = false := h (id, info) (List.mem_cons_self _ _)
    have h2 := ih (fun p hp => h p (List.mem_cons_of_mem _ hp))
    simp only [firstResponderGo, h1]
    exact h2

/-- C10: in every manager state in which no record is connected (the empty
store included), each first-responder query invokes nothing, emits nothing,
and throws an aggregate error wrapping zero per-record errors — it neither
returns a value nor fails with a distinct not-found error. -/
theorem first_responder_no_connected
    (remoteP remoteR remoteT : String → Option Nat → Except JsError Nat)
    (promptName resourceUri toolName : String) (argsTimeout timeout : Option Nat)
    (s : Manager) (h : ∀ p ∈ s.clients, p.2.connected = false) :
    getPrompt remoteP promptName argsTimeout timeout s =
      { result := .error ⟨[], "Prompt \"" ++ promptName ++ "\" not found in any client"⟩
        state := s, events := [], invoked := [] }
    ∧ readResource remoteR resourceUri timeout s =
      { result := .error ⟨[], "Resource \"" ++ resourceUri ++ "\" not found in any client"⟩
        state := s, events := [], invoked := [] }
    ∧ callTool remoteT toolName timeout s =
      { result := .error ⟨[], "Tool \"" ++ toolName ++ "\" not found in any client"⟩
        state := s, events := [], invoked := [] } := by
  refine ⟨?_, ?_, ?_⟩
  · simp only [getPrompt, firstResponderGo_nothing_connected _ _ _ s.clients h, List.map_nil]
  · simp only [readResource, firstResponderGo_nothing_connected _ _ _ s.clients h, List.map_nil]
  · simp only [callTool, firstResponderGo_nothing_connected _ _ _ s.clients h, List.map_nil]

/-- Witness for C10 at a concrete manager whose only record is
disconnected. -/
theorem first_responder_no_connected_witness :
    getPrompt exRemoteAllFail "p" none none exManagerDisc =
      { result := .error ⟨[], "Prompt \"" ++ "p" ++ "\" not found in any client"⟩
        state := exManagerDisc, events := [], invoked := [] }
    ∧ readResource exRemoteAllFail "file:a" none exManagerDisc =
      { result := .error ⟨[], "Resource \"" ++ "file:a" ++ "\" not found in any client"⟩
        state := exManagerDisc, events := [], invoked := [] }
    ∧ callTool exRemoteAllFail "echo" none exManagerDisc =
      { result := .error ⟨[], "Tool \"" ++ "echo" ++ "\" not found in any client"⟩
        state := exManagerDisc, events := [], invoked := [] } :=
  first_responder_no_connected exRemoteAllFail exRemoteAllFail exRemoteAllFail
    "p" "file:a" "echo" none none exManagerDisc (by decide)

/-! ## Structure of the aggregating pass -/

theorem aggregateGo_spec (opName : String)
    (remote : String → Option Nat → RemoteListResult) (eff : Option Nat) :
    ∀ l : List (String × ClientRecord),
      (aggregateGo opName remote eff l).collected
          = ((connectedEntries l).map (fun p => itemsOf (remote p.1 eff))).flatten
      ∧ (aggregateGo opName remote eff l).errors
          = ((connectedEntries l).filter (fun p => isErrRemote (remote p.1 eff))).map
              (fun p => (p.1, errOfRemote (remote p.1 eff)))
      ∧ (aggregateGo opName remote eff l).events
          = ((connectedEntries l).filter (fun p => isErrRemote (remote p.1 eff))).map
              (fun p => .operationError opName p.1 p.2.serverName (errOfRemote (remote p.1 eff)))
      ∧ (aggregateGo opName remote eff l).invoked
          = (connectedEntries l).map (fun p => (p.1, eff)) := by
  intro l
  induction l with
  | nil => exact ⟨rfl, rfl, rfl, rfl⟩
  | cons a rest ih =>
    obtain ⟨id, info⟩ := a
    obtain ⟨ih1, ih2, ih3, ih4⟩ := ih
    by_cases hc : info.connected
    · rcases hr : remote id eff with its | _ | e <;>
        refine ⟨?_, ?_, ?_, ?_⟩ <;>
          simp [aggregateGo, connectedEntries, itemsOf, isErrRemote, errOfRemote, hc, hr,
            ih1, ih2, ih3, ih4, List.filter_cons]
    · refine ⟨?_, ?_, ?_, ?_⟩ <;>
        simp [aggregateGo, connectedEntries, hc, ih1, ih2, ih3, ih4, List.filter_cons]

theorem aggregateQuery_spec (opName failMessage : String)
    (remote : String → Option Nat → RemoteListResult) (timeout : Option Nat) (s : Manager) :
    ((aggregateQuery opName failMessage remote timeout s).result
        = .error ⟨(aggPassOf opName remote timeout s).errors.map (fun p => p.2), failMessage⟩
      ↔ (aggPassOf opName remote timeout s).errors ≠ []
        ∧ (aggPassOf opName remote timeout s).collected = [])
    ∧ ((aggPassOf opName remote timeout s).errors = []
        ∨ (aggPassOf opName remote timeout s).collected ≠ []
        → (aggregateQuery opName failMessage remote timeout s).result
            = .ok (aggPassOf opName remote timeout s).collected)
    ∧ (aggregateQuery opName failMessage remote timeout s).events
        = (aggPassOf opName remote timeout s).events
    ∧ (aggregateQuery opName failMessage remote timeout s).invoked
        = (aggPassOf opName remote timeout s).invoked := by
  by_cases hcond : 0 < (aggPassOf opName remote timeout s).errors.length
      ∧ (aggPassOf opName remote timeout s).collected.length = 0
  · have hcond' := hcond
    unfold aggPassOf at hcond'
    have hres : (aggregateQuery opName failMessage remote timeout s)
        = { result := .error ⟨(aggPassOf opName remote timeout s).errors.map (fun p => p.2),
              failMessage⟩
            state := { s with clients := (aggPassOf opName remote timeout s).clients }
            events := (aggPassOf opName remote timeout s).events
            invoked := (aggPassOf opName remote timeout s).invoked } := by
      unfold aggregateQuery aggPassOf
      dsimp only
      rw [if_pos hcond']
    refine ⟨⟨fun _ => ?_, fun _ => by rw [hres]⟩, fun hx => ?_, by rw [hres], by rw [hres]⟩
    · constructor
      · intro hnil
        rw [hnil] at hcond
        exact absurd hcond.1 (by simp)
      · exact List.length_eq_zero.mp hcond.2
    · rcases hx with hx | hx
      · rw [hx] at hcond
        exact absurd hcond.1 (by simp)
      · exact absurd (List.length_eq_zero.mp hcond.2) hx
  · have hcond' := hcond
    unfold aggPassOf at hcond'
    have hres : (aggregateQuery opName failMessage remote timeout s)
        = { result := .ok (aggPassOf opName remote timeout s).collected
            state := { s with clients := (aggPassOf opName remote timeout s).clients }
            events := (aggPassOf opName remote timeout s).events
            invoked := (aggPassOf opName remote timeout s).invoked } := by
      unfold aggregateQuery aggPassOf
      dsimp only
      rw [if_neg hcond']
    refine ⟨⟨fun hx => ?_, fun hx => ?_⟩, fun _ => by rw [hres], by rw [hres], by rw [hres]⟩
    · rw [hres] at hx
      exact absurd hx (by simp)
    · exact absurd ⟨List.length_pos.mpr hx.1, by rw [hx.2]; rfl⟩ hcond

theorem aggregateQuery_invoked_timeout (opName failMessage : String)
    (remote : String → Option Nat → RemoteListResult) (timeout : Option Nat) (s : Manager) :
    ∀ q ∈ (aggregateQuery opName failMessage remote timeout s).invoked,
      q.2 = jsOrNat timeout s.config.defaultTimeout := by
  intro q hq
  rw [(aggregateQuery_spec opName failMessage remote timeout s).2.2.2] at hq
  unfold aggPassOf at hq
  rw [(aggregateGo_spec opName remote (jsOrNat timeout s.config.defaultTimeout) s.clients).2.2.2] at hq
  obtain ⟨p, _, hpe⟩ := List.mem_map.mp hq
  rw [← hpe]

/-! ## Structure of the first-responder pass -/

theorem firstResponderGo_invoked (opName : String)
    (remote : String → Option Nat → Except JsError Nat) (eff : Option Nat) :
    ∀ l : List (String × ClientRecord),
      ∀ q ∈ (firstResponderGo opName remote eff l).invoked,
        q.2 = eff ∧ ∃ info, (q.1, info) ∈ l ∧ info.connected = true := by
  intro l
  induction l with
  | nil =>
    intro q hq
    simp [firstResponderGo] at hq
  | cons a rest ih =>
    intro q hq
    obtain ⟨id, info⟩ := a
    by_cases hc : info.connected
    · rcases hr : remote id eff with e | v
      · simp only [firstResponderGo, hc, if_true, hr, List.mem_cons] at hq
        rcases hq with rfl | hq
        · exact ⟨rfl, info, List.mem_cons_self _ _, hc⟩
        · obtain ⟨h1, info', hmem, hconn⟩ := ih q hq
          exact ⟨h1, info', List.mem_cons_of_mem _ hmem, hconn⟩
      · simp only [firstResponderGo, hc, if_true, hr, List.mem_singleton] at hq
        subst hq
        exact ⟨rfl, info, List.mem_cons_self _ _, hc⟩
    · simp only [firstResponderGo, hc, if_false] at hq
      obtain ⟨h1, info', hmem, hconn⟩ := ih q hq
      exact ⟨h1, info', List.mem_cons_of_mem _ hmem, hconn⟩

theorem getPrompt_invoked_eq (remote : String → Option Nat → Except JsError Nat)
    (promptName : String) (argsTimeout timeout : Option Nat) (s : Manager) :
    (getPrompt remote promptName argsTimeout timeout s).invoked
      = (firstResponderGo "getPrompt" remote
          (getPromptTimeout timeout argsTimeout s.config.defaultTimeout) s.clients).invoked := by
  unfold getPrompt
  rcases hf : (firstResponderGo "getPrompt" remote
      (getPromptTimeout timeout argsTimeout s.config.defaultTimeout) s.clients).found with _ | v <;>
    simp [hf]

theorem readResource_invoked_eq (remote : String → Option Nat → Except JsError Nat)
    (resourceUri : String) (timeout : Option Nat) (s : Manager) :
    (readResource remote resourceUri timeout s).invoked
      = (firstResponderGo "readResource" remote
          (guardedTimeout timeout s.config.defaultTimeout) s.clients).invoked := by
  unfold readResource
  rcases hf : (firstResponderGo "readResource" remote
      (guardedTimeout timeout s.config.defaultTimeout) s.clients).found with _ | v <;>
    simp [hf]

theorem callTool_invoked_eq (remote : String → Option Nat → Except JsError Nat)
    (toolName : String) (timeout : Option Nat) (s : Manager) :
    (callTool remote toolName timeout s).invoked
      = (firstResponderGo "callTool" remote
          (guardedTimeout timeout s.config.defaultTimeout) s.clients).invoked := by
  unfold callTool
  rcases hf : (firstResponderGo "callTool" remote
      (guardedTimeout timeout s.config.defaultTimeout) s.clients).found with _ | v <;>
    simp [hf]

/-! ## C9: effective timeouts -/

/-- C9 counterexample: an explicit timeout argument of `0` is given, yet every
remote call of the pass is made with the configured default of 30000 ms — the
`timeout || default` fallback treats a zero argument as absent, contradicting
the claim that the applied timeout equals the explicit argument whenever one
is given. -/
theorem timeout_zero_counterexample :
    (listTools exRemoteOneThenFail (some 0) exManagerTwo).invoked
      = [("client-1", some 30000), ("client-2", some 30000)]
    ∧ (some 30000 : Option Nat) ≠ some 0 := by
  constructor
  · rfl
  · decide

/-- C9 (amended): the timeout applied to each remote call of a fan-out
operation is the explicit timeout argument when that is given and nonzero;
otherwise the manager's configured `defaultTimeout` — which is 30000 ms when
not supplied at construction — when that is nonzero (for `getPrompt` only
when no truthy `args.timeout` is already present, which otherwise survives);
otherwise no timeout.  A zero explicit argument is treated as absent. -/
theorem effective_timeout_amended
    (remoteL : String → Option Nat → RemoteListResult)
    (remoteF : String → Option Nat → Except JsError Nat)
    (promptName resourceUri toolName : String)
    (argsTimeout timeout : Option Nat) (s : Manager) :
    (mergeConfig {}).defaultTimeout = some 30000
    ∧ (∀ q ∈ (listPrompts remoteL timeout s).invoked,
        q.2 = jsOrNat timeout s.config.defaultTimeout)
    ∧ (∀ q ∈ (listResources remoteL timeout s).invoked,
        q.2 = jsOrNat timeout s.config.defaultTimeout)
    ∧ (∀ q ∈ (listTools remoteL timeout s).invoked,
        q.2 = jsOrNat timeout s.config.defaultTimeout)
    ∧ (∀ q ∈ (getPrompt remoteF promptName argsTimeout timeout s).invoked,
        q.2 = getPromptTimeout timeout argsTimeout s.config.defaultTimeout)
    ∧ (∀ q ∈ (readResource remoteF resourceUri timeout s).invoked,
        q.2 = guardedTimeout timeout s.config.defaultTimeout)
    ∧ (∀ q ∈ (callTool remoteF toolName timeout s).invoked,
        q.2 = guardedTimeout timeout s.config.defaultTimeout)
    ∧ (jsTruthyNat timeout = true →
        jsOrNat timeout s.config.defaultTimeout = timeout
        ∧ guardedTimeout timeout s.config.defaultTimeout = timeout
        ∧ getPromptTimeout timeout argsTimeout s.config.defaultTimeout = timeout)
    ∧ (jsTruthyNat timeout = false →
        jsOrNat timeout s.config.defaultTimeout = s.config.defaultTimeout
        ∧ (jsTruthyNat s.config.defaultTimeout = true →
            guardedTimeout timeout s.config.defaultTimeout = s.config.defaultTimeout
            ∧ (jsTruthyNat argsTimeout = false →
                getPromptTimeout timeout argsTimeout s.config.defaultTimeout
                  = s.config.defaultTimeout))
        ∧ (jsTruthyNat argsTimeout = true →
            getPromptTimeout timeout argsTimeout s.config.defaultTimeout = argsTimeout))
    ∧ (timeout = none ∧ s.config.defaultTimeout = none →
        jsOrNat timeout s.config.defaultTimeout = none
        ∧ guardedTimeout timeout s.config.defaultTimeout = none) := by
  refine ⟨rfl, ?_, ?_, ?_, ?_, ?_, ?_, ?_, ?_, ?_⟩
  · exact aggregateQuery_invoked_timeout "listPrompts" _ remoteL timeout s
  · exact aggregateQuery_invoked_timeout "listResources" _ remoteL timeout s
  · exact aggregateQuery_invoked_timeout "listTools" _ remoteL timeout s
  · intro q hq
    rw [getPrompt_invoked_eq] at hq
    exact (firstResponderGo_invoked _ _ _ _ q hq).1
  · intro q hq
    rw [readResource_invoked_eq] at hq
    exact (firstResponderGo_invoked _ _ _ _ q hq).1
  · intro q hq
    rw [callTool_invoked_eq] at hq
    exact (firstResponderGo_invoked _ _ _ _ q hq).1
  · intro ht
    refine ⟨by simp [jsOrNat, ht], by simp [guardedTimeout, jsOrNat, ht], by simp [getPromptTimeout, ht]⟩
  · intro hf
    refine ⟨by simp [jsOrNat, hf], fun hd => ⟨by simp [guardedTimeout, jsOrNat, hf, hd],
      fun ha => by simp [getPromptTimeout, hf, hd, ha]⟩, fun ha => by simp [getPromptTimeout, hf, ha]⟩
  · rintro ⟨h1, h2⟩
    subst h1
    rw [h2]
    exact ⟨rfl, rfl⟩

/-- Witness for C9 (amended), exercising the nonzero-explicit, default-only
and nothing-configured branches at concrete inputs. -/
theorem effective_timeout_amended_witness :
    (mergeConfig {}).defaultTimeout = some 30000
    ∧ ("client-1", (some 5 : Option Nat)).2 = jsOrNat (some 5) exManagerTwo.config.defaultTimeout
    ∧ (jsOrNat (some 5) exManagerTwo.config.defaultTimeout = some 5
        ∧ guardedTimeout (some 5) exManagerTwo.config.defaultTimeout = some 5
        ∧ getPromptTimeout (some 5) none exManagerTwo.config.defaultTimeout = some 5)
    ∧ (jsOrNat none exManagerTwo.config.defaultTimeout = exManagerTwo.config.defaultTimeout)
    ∧ (jsOrNat none (mkManager { defaultTimeout := some none }).config.defaultTimeout = none
        ∧ guardedTimeout none (mkManager { defaultTimeout := some none }).config.defaultTimeout
            = none) := by
  obtain ⟨d1, d2, _, d4, _, _, _, d8, d9, d10⟩ :=
    effective_timeout_amended exRemoteOneThenFail exRemoteFailThenOk "p" "u" "t" none (some 5)
      exManagerTwo
  obtain ⟨_, _, _, _, _, _, _, _, e9, _⟩ :=
    effective_timeout_amended exRemoteOneThenFail exRemoteFailThenOk "p" "u" "t" none none
      exManagerTwo
  obtain ⟨_, _, _, _, _, _, _, _, _, f10⟩ :=
    effective_timeout_amended exRemoteOneThenFail exRemoteFailThenOk "p" "u" "t" none none
      (mkManager { defaultTimeout := some none })
  exact ⟨d1, d4 ("client-1", some 5) (by decide), d8 (by decide), (e9 (by decide)).1,
    f10 ⟨rfl, rfl⟩⟩

/-! ## C1: aggregating queries -/

/-- C1 counterexample: with `client-1` connected and its remote call
succeeding (returning an empty item list) and `client-2` failing, `listTools`
nevertheless throws the aggregate error — "if at least one connected record's
remote call succeeds, the query returns without throwing" is false on the
code, which tests emptiness of the collected item list rather than the
success count. -/
theorem aggregating_query_counterexample :
    exRemoteEmptyThenFail "client-1" (some 30000) = .items []
    ∧ mapFind exManagerTwo.clients "client-1" = some (exRecord "alpha" true)
    ∧ (exRecord "alpha" true).connected = true
    ∧ (listTools exRemoteEmptyThenFail none exManagerTwo).invoked
        = [("client-1", some 30000), ("client-2", some 30000)]
    ∧ (listTools exRemoteEmptyThenFail none exManagerTwo).result
        = .error ⟨[.ext 7], "Failed to list tools from all clients"⟩ :=
  ⟨rfl, rfl, rfl, rfl, rfl⟩

theorem aggregate_claims (opName failMessage : String)
    (remote : String → Option Nat → RemoteListResult) (timeout : Option Nat) (s : Manager) :
    ((aggregateQuery opName failMessage remote timeout s).result
        = .error ⟨(aggPassOf opName remote timeout s).errors.map (fun p => p.2), failMessage⟩
      ↔ (aggPassOf opName remote timeout s).errors ≠ []
        ∧ (aggPassOf opName remote timeout s).collected = [])
    ∧ ((aggPassOf opName remote timeout s).errors = []
        ∨ (aggPassOf opName remote timeout s).collected ≠ []
        → (aggregateQuery opName failMessage remote timeout s).result
            = .ok (aggPassOf opName remote timeout s).collected)
    ∧ (aggregateQuery opName failMessage remote timeout s).events
        = (aggPassOf opName remote timeout s).events
    ∧ (aggPassOf opName remote timeout s).events.map operationErrorData
        = (aggPassOf opName remote timeout s).errors
    ∧ (∀ ev ∈ (aggPassOf opName remote timeout s).events, isOperationErrorOf opName ev = true)
    ∧ (aggPassOf opName remote timeout s).collected
        = ((connectedEntries s.clients).map
            (fun p => itemsOf (remote p.1 (jsOrNat timeout s.config.defaultTimeout)))).flatten := by
  obtain ⟨g1, g2, g3, g4⟩ :=
    aggregateGo_spec opName remote (jsOrNat timeout s.config.defaultTimeout) s.clients
  obtain ⟨q1, q2, q3, _⟩ := aggregateQuery_spec opName failMessage remote timeout s
  refine ⟨q1, q2, q3, ?_, ?_, ?_⟩
  · show (aggregateGo opName remote (jsOrNat timeout s.config.defaultTimeout) s.clients).events.map
        operationErrorData
      = (aggregateGo opName remote (jsOrNat timeout s.config.defaultTimeout) s.clients).errors
    rw [g3, g2, List.map_map]
    rfl
  · intro ev hev
    rw [show (aggPassOf opName remote timeout s).events
        = (aggregateGo opName remote (jsOrNat timeout s.config.defaultTimeout) s.clients).events
        from rfl, g3] at hev
    obtain ⟨p, _, hpe⟩ := List.mem_map.mp hev
    rw [← hpe]
    simp [isOperationErrorOf]
  · exact g1

/-- C1 (amended): for every aggregating query, the call returns the unioned
(possibly partial) item list without throwing iff at least one item was
collected or no per-record failure occurred; it throws an aggregate error
carrying every collected per-record error exactly when the collected item
list is empty and at least one failure occurred (a record whose call succeeds
with an empty or non-array item list does not count as a success); and
per-record failures are surfaced only as `operationError` events, exactly one
per collected error, in visitation order. -/
theorem aggregating_query_amended
    (remote : String → Option Nat → RemoteListResult) (timeout : Option Nat) (s : Manager) :
    (((listPrompts remote timeout s).result
        = .error ⟨(aggPassOf "listPrompts" remote timeout s).errors.map (fun p => p.2),
            "Failed to list prompts from all clients"⟩
      ↔ (aggPassOf "listPrompts" remote timeout s).errors ≠ []
        ∧ (aggPassOf "listPrompts" remote timeout s).collected = [])
    ∧ ((aggPassOf "listPrompts" remote timeout s).errors = []
        ∨ (aggPassOf "listPrompts" remote timeout s).collected ≠ []
        → (listPrompts remote timeout s).result
            = .ok (aggPassOf "listPrompts" remote timeout s).collected)
    ∧ (listPrompts remote timeout s).events = (aggPassOf "listPrompts" remote timeout s).events
    ∧ (aggPassOf "listPrompts" remote timeout s).events.map operationErrorData
        = (aggPassOf "listPrompts" remote timeout s).errors
    ∧ (∀ ev ∈ (aggPassOf "listPrompts" remote timeout s).events,
        isOperationErrorOf "listPrompts" ev = true)
    ∧ (aggPassOf "listPrompts" remote timeout s).collected
        = ((connectedEntries s.clients).map
            (fun p => itemsOf (remote p.1 (jsOrNat timeout s.config.defaultTimeout)))).flatten)
    ∧ (((listResources remote timeout s).result
        = .error ⟨(aggPassOf "listResources" remote timeout s).errors.map (fun p => p.2),
            "Failed to list resources from all clients"⟩
      ↔ (aggPassOf "listResources" remote timeout s).errors ≠ []
        ∧ (aggPassOf "listResources" remote timeout s).collected = [])
    ∧ ((aggPassOf "listResources" remote timeout s).errors = []
        ∨ (aggPassOf "listResources" remote timeout s).collected ≠ []
        → (listResources remote timeout s).result
            = .ok (aggPassOf "listResources" remote timeout s).collected)
    ∧ (listResources remote timeout s).events
        = (aggPassOf "listResources" remote timeout s).events
    ∧ (aggPassOf "listResources" remote timeout s).events.map operationErrorData
        = (aggPassOf "listResources" remote timeout s).errors
    ∧ (∀ ev ∈ (aggPassOf "listResources" remote timeout s).events,
        isOperationErrorOf "listResources" ev = true)
    ∧ (aggPassOf "listResources" remote timeout s).collected
        = ((connectedEntries s.clients).map
            (fun p => itemsOf (remote p.1 (jsOrNat timeout s.config.defaultTimeout)))).flatten)
    ∧ (((listTools remote timeout s).result
        = .error ⟨(aggPassOf "listTools" remote timeout s).errors.map (fun p => p.2),
            "Failed to list tools from all clients"⟩
      ↔ (aggPassOf "listTools" remote timeout s).errors ≠ []
        ∧ (aggPassOf "listTools" remote timeout s).collected = [])
    ∧ ((aggPassOf "listTools" remote timeout s).errors = []
        ∨ (aggPassOf "listTools" remote timeout s).collected ≠ []
        → (listTools remote timeout s).result
            = .ok (aggPassOf "listTools" remote timeout s).collected)
    ∧ (listTools remote timeout s).events = (aggPassOf "listTools" remote timeout s).events
    ∧ (aggPassOf "listTools" remote timeout s).events.map operationErrorData
        = (aggPassOf "listTools" remote timeout s).errors
    ∧ (∀ ev ∈ (aggPassOf "listTools" remote timeout s).events,
        isOperationErrorOf "listTools" ev = true)
    ∧ (aggPassOf "listTools" remote timeout s).collected
        = ((connectedEntries s.clients).map
            (fun p => itemsOf (remote p.1 (jsOrNat timeout s.config.defaultTimeout)))).flatten) :=
  ⟨aggregate_claims "listPrompts" _ remote timeout s,
   aggregate_claims "listResources" _ remote timeout s,
   aggregate_claims "listTools" _ remote timeout s⟩

/-- Witness for C1 (amended): a partial success returns the collected union,
an all-failure pass throws the collected errors. -/
theorem aggregating_query_amended_witness :
    (listTools exRemoteOneThenFail none exManagerTwo).result
      = .ok (aggPassOf "listTools" exRemoteOneThenFail none exManagerTwo).collected
    ∧ (aggPassOf "listTools" exRemoteOneThenFail none exManagerTwo).collected = [42]
    ∧ (listTools exRemoteEmptyThenFail none exManagerTwo).result
        = .error ⟨(aggPassOf "listTools" exRemoteEmptyThenFail none exManagerTwo).errors.map
            (fun p => p.2), "Failed to list tools from all clients"⟩ := by
  obtain ⟨_, _, h1⟩ := aggregating_query_amended exRemoteOneThenFail none exManagerTwo
  obtain ⟨_, _, h2⟩ := aggregating_query_amended exRemoteEmptyThenFail none exManagerTwo
  exact ⟨h1.2.1 (Or.inr (by decide)), rfl, h2.1.mpr ⟨by decide, by decide⟩⟩

/-! ## C3: disconnected records are excluded from fan-out -/

theorem nodup_keys_functional {β : Type} :
    ∀ l : List (String × β), (l.map Prod.fst).Nodup →
      ∀ k (a b : β), (k, a) ∈ l → (k, b) ∈ l → a = b := by
  intro l
  induction l with
  | nil =>
    intro _ k a b ha _
    exact absurd ha (List.not_mem_nil _)
  | cons x rest ih =>
    intro hnd k a b ha hb
    have hnd' : (x.1 :: rest.map Prod.fst).Nodup := by simpa using hnd
    obtain ⟨hx, hrest⟩ := List.nodup_cons.mp hnd'
    rcases List.mem_cons.mp ha with ha | ha <;> rcases List.mem_cons.mp hb with hb | hb
    · rw [← hb] at ha
      exact (Prod.mk.injEq _ _ _ _ ▸ ha).2
    · exfalso
      apply hx
      have hk : k ∈ rest.map Prod.fst := List.mem_map_of_mem Prod.fst hb
      rw [← ha]
      exact hk
    · exfalso
      apply hx
      have hk : k ∈ rest.map Prod.fst := List.mem_map_of_mem Prod.fst ha
      rw [← hb]
      exact hk
    · exact ih hrest k a b ha hb

theorem connectedEntries_id_ne {s : Manager} {id : String} {r : ClientRecord}
    (hnd : (s.clients.map Prod.fst).Nodup) (hmem : (id, r) ∈ s.clients)
    (hdisc : r.connected = false) :
    ∀ p ∈ connectedEntries s.clients, p.1 ≠ id := by
  intro p hp heq
  obtain ⟨pid, pinfo⟩ := p
  obtain ⟨hpmem, hpconn⟩ := List.mem_filter.mp hp
  dsimp at heq
  subst heq
  have : pinfo = r := nodup_keys_functional s.clients hnd pid pinfo r hpmem hmem
  rw [this] at hpconn
  rw [hdisc] at hpconn
  exact absurd hpconn (by simp)

/-- C3: while a record is `Disconnected` no fan-out query — aggregating or
first-responder — ever invokes a remote operation on it, and the aggregated
item union ranges only over the connected records, so none of the
disconnected record's items can appear in a result. -/
theorem disconnected_excluded
    (remoteL : String → Option Nat → RemoteListResult)
    (remoteF : String → Option Nat → Except JsError Nat)
    (promptName resourceUri toolName : String) (argsTimeout timeout : Option Nat)
    (s : Manager) (id : String) (r : ClientRecord)
    (hnd : (s.clients.map Prod.fst).Nodup)
    (hmem : (id, r) ∈ s.clients) (hdisc : r.connected = false) :
    (∀ q ∈ (listPrompts remoteL timeout s).invoked, q.1 ≠ id)
    ∧ (∀ q ∈ (listResources remoteL timeout s).invoked, q.1 ≠ id)
    ∧ (∀ q ∈ (listTools remoteL timeout s).invoked, q.1 ≠ id)
    ∧ (∀ q ∈ (getPrompt remoteF promptName argsTimeout timeout s).invoked, q.1 ≠ id)
    ∧ (∀ q ∈ (readResource remoteF resourceUri timeout s).invoked, q.1 ≠ id)
    ∧ (∀ q ∈ (callTool remoteF toolName timeout s).invoked, q.1 ≠ id)
    ∧ (aggPassOf "listTools" remoteL timeout s).collected
        = ((connectedEntries s.clients).map
            (fun p => itemsOf (remoteL p.1 (jsOrNat timeout s.config.defaultTimeout)))).flatten := by
  have hkey := connectedEntries_id_ne hnd hmem hdisc
  have haggr : ∀ opName failMessage, ∀ q ∈ (aggregateQuery opName failMessage remoteL timeout s).invoked,
      q.1 ≠ id := by
    intro opName failMessage q hq
    rw [(aggregateQuery_spec opName failMessage remoteL timeout s).2.2.2] at hq
    rw [show (aggPassOf opName remoteL timeout s).invoked
        = (aggregateGo opName remoteL (jsOrNat timeout s.config.defaultTimeout) s.clients).invoked
        from rfl,
      (aggregateGo_spec opName remoteL (jsOrNat timeout s.config.defaultTimeout) s.clients).2.2.2] at hq
    obtain ⟨p, hp, hpe⟩ := List.mem_map.mp hq
    rw [← hpe]
    exact hkey p hp
  have hfr : ∀ opName eff, ∀ q ∈ (firstResponderGo opName remoteF eff s.clients).invoked,
      q.1 ≠ id := by
    intro opName eff q hq heq
    obtain ⟨_, info, hin, hconn⟩ := firstResponderGo_invoked opName remoteF eff s.clients q hq
    rw [heq] at hin
    have : info = r := nodup_keys_functional s.clients hnd id info r hin hmem
    rw [this, hdisc] at hconn
    exact absurd hconn (by simp)
  refine ⟨haggr "listPrompts" _, haggr "listResources" _, haggr "listTools" _, ?_, ?_, ?_, ?_⟩
  · intro q hq
    rw [getPrompt_invoked_eq] at hq
    exact hfr "getPrompt" _ q hq
  · intro q hq
    rw [readResource_invoked_eq] at hq
    exact hfr "readResource" _ q hq
  · intro q hq
    rw [callTool_invoked_eq] at hq
    exact hfr "callTool" _ q hq
  · exact (aggregateGo_spec "listTools" remoteL (jsOrNat timeout s.config.defaultTimeout)
      s.clients).1

/-- Witness for C3: in a manager whose `client-1` is disconnected, a pass
invokes only `client-2`. -/
theorem disconnected_excluded_witness :
    (listTools exRemoteOneThenFail none exManagerMixed).invoked = [("client-2", some 30000)]
    ∧ ("client-2" : String) ≠ "client-1" := by
  have h := disconnected_excluded exRemoteOneThenFail exRemoteFailThenOk "p" "u" "t" none none
    exManagerMixed "client-1" (exRecord "alpha" false) (by decide) (by decide) (by decide)
  exact ⟨rfl, h.2.2.1 ("client-2", some 30000) (by decide)⟩

/-! ## C7: the `reconnectClient` contract -/

/-- C7: `reconnectClient` returns `false` without side effects for an unknown
id and `true` without side effects when the record is already connected;
otherwise it builds a brand-new client (a fresh handle from the allocator)
over the record's existing transport handle and attempts the connect — on
success it marks the record connected, clears `lastError`, emits
`clientReconnected` and returns `true`; on failure it emits
`reconnectionError`, returns `false`, and leaves the record (still
disconnected) and the reconnect timers untouched, scheduling nothing
itself. -/
theorem reconnectClient_contract (s : Manager) (clientId : String) (r : ClientRecord)
    (connectOutcome : Except JsError Unit) (e : JsError) :
    (mapFind s.clients clientId = none →
      reconnectClient s clientId connectOutcome = { result := false, state := s, events := [] })
    ∧ (mapFind s.clients clientId = some r → r.connected = true →
      reconnectClient s clientId connectOutcome = { result := true, state := s, events := [] })
    ∧ (mapFind s.clients clientId = some r → r.connected = false →
      reconnectClient s clientId (.ok ()) =
        { result := true
          state := { s with
            clients := mapSet s.clients clientId ({ r with clientHandle := s.nextHandle, connected := true, error := none })
            nextHandle := s.nextHandle + 1 }
          events := [.clientReconnected clientId r.serverName] }
      ∧ ({ r with clientHandle := s.nextHandle, connected := true, error := none } : ClientRecord).transportHandle = r.transportHandle
      ∧ (r.clientHandle < s.nextHandle →
          ({ r with clientHandle := s.nextHandle, connected := true, error := none } : ClientRecord).clientHandle ≠ r.clientHandle))
    ∧ (mapFind s.clients clientId = some r → r.connected = false →
      reconnectClient s clientId (.error e) =
        { result := false
          state := { s with nextHandle := s.nextHandle + 1 }
          events := [.reconnectionError clientId e] }) := by
  refine ⟨?_, ?_, ?_, ?_⟩
  · intro h0
    unfold reconnectClient
    rw [h0]
  · intro h0 hconn
    unfold reconnectClient
    rw [h0]
    simp [hconn]
  · intro h0 hdisc
    refine ⟨?_, rfl, fun hlt => ne_of_gt hlt⟩
    unfold reconnectClient
    rw [h0]
    simp [hdisc]
  · intro h0 hdisc
    unfold reconnectClient
    rw [h0]
    simp [hdisc]

/-- Witness for C7, exercising all four branches at concrete inputs. -/
theorem reconnectClient_contract_witness :
    reconnectClient exManagerTwo "client-9" (.ok ())
      = { result := false, state := exManagerTwo, events := [] }
    ∧ reconnectClient exManagerTwo "client-1" (.ok ())
      = { result := true, state := exManagerTwo, events := [] }
    ∧ reconnectClient exManagerDisc "client-1" (.ok ())
      = { result := true
          state := { exManagerDisc with
            clients := mapSet exManagerDisc.clients "client-1" ({ exRecord "alpha" false with clientHandle := exManagerDisc.nextHandle, connected := true, error := none })
            nextHandle := exManagerDisc.nextHandle + 1 }
          events := [.clientReconnected "client-1" (exRecord "alpha" false).serverName] }
    ∧ reconnectClient exManagerDisc "client-1" (.error (.ext 4))
      = { result := false
          state := { exManagerDisc with nextHandle := exManagerDisc.nextHandle + 1 }
          events := [.reconnectionError "client-1" (.ext 4)] } := by
  refine ⟨?_, ?_, ?_, ?_⟩
  · exact (reconnectClient_contract exManagerTwo "client-9" (exRecord "x" true) (.ok ())
      (.ext 0)).1 (by decide)
  · exact (reconnectClient_contract exManagerTwo "client-1" (exRecord "alpha" true) (.ok ())
      (.ext 0)).2.1 (by decide) (by decide)
  · exact ((reconnectClient_contract exManagerDisc "client-1" (exRecord "alpha" false) (.ok ())
      (.ext 0)).2.2.1 (by decide) (by decide)).1
  · exact (reconnectClient_contract exManagerDisc "client-1" (exRecord "alpha" false) (.ok ())
      (.ext 4)).2.2.2 (by decide) (by decide)

/-! ## C2: first-responder queries -/

theorem connectedEntries_cons_true {id : String} {info : ClientRecord}
    {rest : List (String × ClientRecord)} (hc : info.connected = true) :
    connectedEntries ((id, info) :: rest) = (id, info) :: connectedEntries rest := by
  simp [connectedEntries, List.filter_cons, hc]

theorem connectedEntries_cons_false {id : String} {info : ClientRecord}
    {rest : List (String × ClientRecord)} (hc : info.connected = false) :
    connectedEntries ((id, info) :: rest) = connectedEntries rest := by
  simp [connectedEntries, List.filter_cons, hc]

theorem firstResponderGo_all_fail (opName : String)
    (remote : String → Option Nat → Except JsError Nat) (eff : Option Nat) :
    ∀ l : List (String × ClientRecord),
      (∀ p ∈ connectedEntries l, ∃ e', remote p.1 eff = .error e') →
      firstResponderGo opName remote eff l =
        { found := none
          errors := (connectedEntries l).map (fun p => (p.1, errOf (remote p.1 eff)))
          events := (connectedEntries l).map
            (fun p => .operationError opName p.1 p.2.serverName (errOf (remote p.1 eff)))
          invoked := (connectedEntries l).map (fun p => (p.1, eff)) } := by
  intro l
  induction l with
  | nil => intro _; rfl
  | cons a rest ih =>
    intro h
    obtain ⟨id, info⟩ := a
    by_cases hc : info.connected
    · rw [connectedEntries_cons_true hc] at h ⊢
      obtain ⟨e', he⟩ := h (id, info) (List.mem_cons_self _ _)
      have ih' := ih (fun p hp => h p (List.mem_cons_of_mem _ hp))
      simp only [firstResponderGo, hc, if_true, he, ih', List.map_cons]
      simp [errOf, he]
    · have hcf : info.connected = false := by simpa using hc
      rw [connectedEntries_cons_false hcf] at h ⊢
      simp only [firstResponderGo, hcf, if_false]
      exact ih h

theorem firstResponderGo_first_success (opName : String)
    (remote : String → Option Nat → Except JsError Nat) (eff : Option Nat) :
    ∀ (l pre : List (String × ClientRecord)) (q : String × ClientRecord)
      (post : List (String × ClientRecord)) (v : Nat),
      connectedEntries l = pre ++ q :: post →
      (∀ p ∈ pre, ∃ e', remote p.1 eff = .error e') →
      remote q.1 eff = .ok v →
      firstResponderGo opName remote eff l =
        { found := some v
          errors := pre.map (fun p => (p.1, errOf (remote p.1 eff)))
          events := pre.map
            (fun p => .operationError opName p.1 p.2.serverName (errOf (remote p.1 eff)))
          invoked := pre.map (fun p => (p.1, eff)) ++ [(q.1, eff)] } := by
  intro l
  induction l with
  | nil =>
    intro pre q post v hsplit
    rw [show connectedEntries [] = [] from rfl] at hsplit
    exact absurd hsplit (by simp)
  | cons a rest ih =>
    intro pre q post v hsplit hpre hq
    obtain ⟨id, info⟩ := a
    by_cases hc : info.connected
    · rw [connectedEntries_cons_true hc] at hsplit
      cases pre with
      | nil =>
        rw [List.nil_append] at hsplit
        injection hsplit with h1 h2
        subst h1
        have hq' : remote id eff = .ok v := hq
        simp only [firstResponderGo, hc, if_true, hq']
        simp
      | cons p0 pre' =>
        rw [List.cons_append] at hsplit
        injection hsplit with h1 h2
        subst h1
        obtain ⟨e', he⟩ := hpre (id, info) (List.mem_cons_self _ _)
        have he' : remote id eff = .error e' := he
        have ih' := ih pre' q post v h2 (fun p hp => hpre p (List.mem_cons_of_mem _ hp)) hq
        simp only [firstResponderGo, hc, if_true, he', ih', List.map_cons, List.cons_append]
        simp [errOf, he']
    · have hcf : info.connected = false := by simpa using hc
      rw [connectedEntries_cons_false hcf] at hsplit
      simp only [firstResponderGo, hcf, if_false]
      exact ih pre q post v hsplit hpre hq

/-- C2: for every first-responder query, connected records are visited in
store insertion order; the first record whose remote call succeeds has its
result returned immediately and no record after it is invoked; each failure
along the way is collected and emitted as an `operationError` event and the
iteration continues; and when no record succeeds the call throws an
aggregate error wrapping every attempt's error, with a message naming the
unresolved target. -/
theorem first_responder_contract
    (remoteF : String → Option Nat → Except JsError Nat)
    (promptName resourceUri toolName : String) (argsTimeout timeout : Option Nat)
    (s : Manager) (effP effR effT : Option Nat)
    (heffP : effP = getPromptTimeout timeout argsTimeout s.config.defaultTimeout)
    (heffR : effR = guardedTimeout timeout s.config.defaultTimeout)
    (heffT : effT = guardedTimeout timeout s.config.defaultTimeout) :
    (∀ (pre : List (String × ClientRecord)) (q : String × ClientRecord)
      (post : List (String × ClientRecord)) (v : Nat),
      connectedEntries s.clients = pre ++ q :: post →
      (∀ p ∈ pre, ∃ e', remoteF p.1 effP = .error e') →
      remoteF q.1 effP = .ok v →
      getPrompt remoteF promptName argsTimeout timeout s =
        { result := .ok v
          state := s
          events := pre.map
            (fun p => .operationError "getPrompt" p.1 p.2.serverName (errOf (remoteF p.1 effP)))
          invoked := pre.map (fun p => (p.1, effP)) ++ [(q.1, effP)] })
    ∧ ((∀ p ∈ connectedEntries s.clients, ∃ e', remoteF p.1 effP = .error e') →
      getPrompt remoteF promptName argsTimeout timeout s =
        { result := .error ⟨(connectedEntries s.clients).map (fun p => errOf (remoteF p.1 effP)),
            "Prompt \"" ++ promptName ++ "\" not found in any client"⟩
          state := s
          events := (connectedEntries s.clients).map
            (fun p => .operationError "getPrompt" p.1 p.2.serverName (errOf (remoteF p.1 effP)))
          invoked := (connectedEntries s.clients).map (fun p => (p.1, effP)) })
    ∧ (∀ (pre : List (String × ClientRecord)) (q : String × ClientRecord)
      (post : List (String × ClientRecord)) (v : Nat),
      connectedEntries s.clients = pre ++ q :: post →
      (∀ p ∈ pre, ∃ e', remoteF p.1 effR = .error e') →
      remoteF q.1 effR = .ok v →
      readResource remoteF resourceUri timeout s =
        { result := .ok v
          state := s
          events := pre.map
            (fun p => .operationError "readResource" p.1 p.2.serverName (errOf (remoteF p.1 effR)))
          invoked := pre.map (fun p => (p.1, effR)) ++ [(q.1, effR)] })
    ∧ ((∀ p ∈ connectedEntries s.clients, ∃ e', remoteF p.1 effR = .error e') →
      readResource remoteF resourceUri timeout s =
        { result := .error ⟨(connectedEntries s.clients).map (fun p => errOf (remoteF p.1 effR)),
            "Resource \"" ++ resourceUri ++ "\" not found in any client"⟩
          state := s
          events := (connectedEntries s.clients).map
            (fun p => .operationError "readResource" p.1 p.2.serverName (errOf (remoteF p.1 effR)))
          invoked := (connectedEntries s.clients).map (fun p => (p.1, effR)) })
    ∧ (∀ (pre : List (String × ClientRecord)) (q : String × ClientRecord)
      (post : List (String × ClientRecord)) (v : Nat),
      connectedEntries s.clients = pre ++ q :: post →
      (∀ p ∈ pre, ∃ e', remoteF p.1 effT = .error e') →
      remoteF q.1 effT = .ok v →
      callTool remoteF toolName timeout s =
        { result := .ok v
          state := s
          events := pre.map
            (fun p => .operationError "callTool" p.1 p.2.serverName (errOf (remoteF p.1 effT)))
          invoked := pre.map (fun p => (p.1, effT)) ++ [(q.1, effT)] })
    ∧ ((∀ p ∈ connectedEntries s.clients, ∃ e', remoteF p.1 effT = .error e') →
      callTool remoteF toolName timeout s =
        { result := .error ⟨(connectedEntries s.clients).map (fun p => errOf (remoteF p.1 effT)),
            "Tool \"" ++ toolName ++ "\" not found in any client"⟩
          state := s
          events := (connectedEntries s.clients).map
            (fun p => .operationError "callTool" p.1 p.2.serverName (errOf (remoteF p.1 effT)))
          invoked := (connectedEntries s.clients).map (fun p => (p.1, effT)) }) := by
  subst heffP heffR heffT
  refine ⟨?_, ?_, ?_, ?_, ?_, ?_⟩
  · intro pre q post v hsplit hpre hq
    unfold getPrompt
    rw [firstResponderGo_first_success "getPrompt" remoteF _ s.clients pre q post v hsplit hpre hq]
  · intro h
    unfold getPrompt
    rw [firstResponderGo_all_fail "getPrompt" remoteF _ s.clients h]
    simp [List.map_map]
  · intro pre q post v hsplit hpre hq
    unfold readResource
    rw [firstResponderGo_first_success "readResource" remoteF _ s.clients pre q post v hsplit hpre hq]
  · intro h
    unfold readResource
    rw [firstResponderGo_all_fail "readResource" remoteF _ s.clients h]
    simp [List.map_map]
  · intro pre q post v hsplit hpre hq
    unfold callTool
    rw [firstResponderGo_first_success "callTool" remoteF _ s.clients pre q post v hsplit hpre hq]
  · intro h
    unfold callTool
    rw [firstResponderGo_all_fail "callTool" remoteF _ s.clients h]
    simp [List.map_map]

/-- Witness for C2: with `client-1` failing and `client-2` succeeding,
`callTool` returns `client-2`'s response after emitting one `operationError`
for `client-1`; with every record failing, `getPrompt` throws the aggregate
of both errors. -/
theorem first_responder_contract_witness :
    callTool exRemoteFailThenOk "echo" none exManagerTwo =
      { result := .ok 99
        state := exManagerTwo
        events := [.operationError "callTool" "client-1" "alpha"
          (errOf (exRemoteFailThenOk "client-1" (some 30000)))]
        invoked := [("client-1", some 30000), ("client-2", some 30000)] }
    ∧ getPrompt exRemoteAllFail "p" none none exManagerTwo =
      { result := .error ⟨[errOf (exRemoteAllFail "client-1" (some 30000)),
            errOf (exRemoteAllFail "client-2" (some 30000))],
          "Prompt \"" ++ "p" ++ "\" not found in any client"⟩
        state := exManagerTwo
        events := [.operationError "getPrompt" "client-1" "alpha"
            (errOf (exRemoteAllFail "client-1" (some 30000))),
          .operationError "getPrompt" "client-2" "beta"
            (errOf (exRemoteAllFail "client-2" (some 30000)))]
        invoked := [("client-1", some 30000), ("client-2", some 30000)] } := by
  constructor
  · have h := (first_responder_contract exRemoteFailThenOk "p" "u" "echo" none none exManagerTwo
      _ _ _ rfl rfl rfl).2.2.2.2.1
      [("client-1", exRecord "alpha" true)] ("client-2", exRecord "beta" true) [] 99
      (by decide)
      (by intro p hp; rw [List.mem_singleton] at hp; subst hp; exact ⟨.ext 5, by decide⟩)
      (by decide)
    exact h.trans (by decide)
  · have h := (first_responder_contract exRemoteAllFail "p" "u" "echo" none none exManagerTwo
      _ _ _ rfl rfl rfl).2.1
      (fun p _ => ⟨.ext 5, rfl⟩)
    exact h.trans (by decide)

/-! ## C6: the reconnect state machine -/

theorem filter_mapErase_self {β : Type} (k : String) :
    ∀ ts : List (String × β), (mapErase ts k).filter (fun p => p.1 == k) = [] := by
  intro ts
  unfold mapErase
  induction ts with
  | nil => rfl
  | cons x rest ih =>
    by_cases hx : x.1 = k
    · simp [List.filter_cons, hx, ih]
    · simp [List.filter_cons, hx, ih]

theorem filter_mapErase_other {β : Type} (k id' : String) (hne : id' ≠ k) :
    ∀ ts : List (String × β),
      (mapErase ts k).filter (fun p => p.1 == id') = ts.filter (fun p => p.1 == id') := by
  intro ts
  unfold mapErase
  induction ts with
  | nil => rfl
  | cons x rest ih =>
    by_cases hx : x.1 = k
    · have hxid : ¬ (x.1 = id') := by
        rw [hx]
        exact fun hh => hne hh.symm
      simp [List.filter_cons, hx, hxid, hne, Ne.symm hne, ih]
    · by_cases hxid : x.1 = id'
      · simp [List.filter_cons, hx, hxid, hne, Ne.symm hne, ih]
      · simp [List.filter_cons, hx, hxid, hne, Ne.symm hne, ih]

theorem scheduleReconnect_clients (s : Manager) (clientId : String) (a : Nat) :
    (scheduleReconnect s clientId a).clients = s.clients := by
  unfold scheduleReconnect
  dsimp only
  split <;> rfl

theorem scheduleReconnect_config (s : Manager) (clientId : String) (a : Nat) :
    (scheduleReconnect s clientId a).config = s.config := by
  unfold scheduleReconnect
  dsimp only
  split <;> rfl

theorem scheduleReconnect_timers (s : Manager) (clientId : String) (a : Nat) :
    activeTimersFor (scheduleReconnect s clientId a) clientId
      = (if a < maxAttemptsOrZero s.config
         then [(clientId, { timerId := s.nextTimerId, attempt := a })] else [])
    ∧ ∀ id', id' ≠ clientId →
        activeTimersFor (scheduleReconnect s clientId a) id' = activeTimersFor s id' := by
  unfold scheduleReconnect activeTimersFor
  dsimp only
  by_cases hge : a ≥ maxAttemptsOrZero s.config
  · rw [if_pos hge, if_neg (by omega)]
    refine ⟨filter_mapErase_self clientId s.reconnectTimers, ?_⟩
    intro id' hne
    exact filter_mapErase_other clientId id' hne s.reconnectTimers
  · rw [if_neg hge, if_pos (by omega)]
    constructor
    · rw [List.filter_append, filter_mapErase_self clientId s.reconnectTimers]
      simp
    · intro id' hne
      rw [List.filter_append, filter_mapErase_other clientId id' hne s.reconnectTimers]
      have : ((clientId, ({ timerId := s.nextTimerId, attempt := a } : PendingTimer)).1 == id')
          = false := by
        simpa using (Ne.symm hne)
      simp [this]

theorem fire_noop (s : Manager) (clientId : String) (o : Except JsError Unit)
    (h : activeTimersFor s clientId = []) :
    fireReconnectTimer s clientId o = (s, []) := by
  have hfind : mapFind s.reconnectTimers clientId = none := by
    unfold mapFind
    rw [find?_eq_head?_filter]
    rw [show s.reconnectTimers.filter (fun p => p.1 == clientId)
        = activeTimersFor s clientId from rfl, h]
    rfl
  unfold fireReconnectTimer
  rw [hfind]

theorem runFailures_noop (clientId : String) (e : JsError) :
    ∀ (n : Nat) (s : Manager), activeTimersFor s clientId = [] →
      runFailures clientId e n s = (s, []) := by
  intro n
  induction n with
  | zero => intro s _; rfl
  | succ n ih =>
    intro s h
    simp only [runFailures, fire_noop s clientId _ h, ih s h]
    rfl

theorem reconnectClient_fail_eq (s : Manager) (clientId : String) (r : ClientRecord)
    (e : JsError) (hrec : mapFind s.clients clientId = some r) (hdisc : r.connected = false) :
    reconnectClient s clientId (.error e) =
      { result := false
        state := { s with nextHandle := s.nextHandle + 1 }
        events := [.reconnectionError clientId e] } := by
  unfold reconnectClient
  rw [hrec]
  simp [hdisc]

theorem fireReconnectTimer_fail (s : Manager) (clientId : String) (r : ClientRecord)
    (e : JsError) (tid a : Nat)
    (hrec : mapFind s.clients clientId = some r) (hdisc : r.connected = false)
    (hauto : jsTruthyBool s.config.autoReconnect = true)
    (htimer : activeTimersFor s clientId = [(clientId, { timerId := tid, attempt := a })]) :
    fireReconnectTimer s clientId (.error e)
      = (scheduleReconnect
          { s with reconnectTimers := mapErase s.reconnectTimers clientId, nextHandle := s.nextHandle + 1 }
          clientId (a + 1),
         [.reconnectionError clientId e]) := by
  have hfind : mapFind s.reconnectTimers clientId
      = some { timerId := tid, attempt := a } := by
    unfold mapFind
    rw [find?_eq_head?_filter]
    rw [show s.reconnectTimers.filter (fun p => p.1 == clientId)
        = activeTimersFor s clientId from rfl, htimer]
    rfl
  unfold fireReconnectTimer
  rw [hfind]
  dsimp only
  rw [reconnectClient_fail_eq ({ s with reconnectTimers := mapErase s.reconnectTimers clientId })
    clientId r e hrec hdisc]
  simp [hauto]

theorem runFailures_terminal (clientId : String) (e : JsError) :
    ∀ (n : Nat) (s : Manager) (r : ClientRecord) (tid a : Nat),
      mapFind s.clients clientId = some r → r.connected = false →
      jsTruthyBool s.config.autoReconnect = true →
      activeTimersFor s clientId = [(clientId, { timerId := tid, attempt := a })] →
      a < maxAttemptsOrZero s.config →
      maxAttemptsOrZero s.config ≤ a + n →
      activeTimersFor (runFailures clientId e n s).1 clientId = []
      ∧ (runFailures clientId e n s).2
          = List.replicate (maxAttemptsOrZero s.config - a) (.reconnectionError clientId e)
      ∧ (runFailures clientId e n s).1.clients = s.clients
      ∧ (runFailures clientId e n s).1.config = s.config := by
  intro n
  induction n with
  | zero =>
    intro s r tid a _ _ _ _ hlt hle
    omega
  | succ n ih =>
    intro s r tid a hrec hdisc hauto htimer hlt hle
    have hstep := fireReconnectTimer_fail s clientId r e tid a hrec hdisc hauto htimer
    have hrun : runFailures clientId e (n + 1) s
        = ((runFailures clientId e n (fireReconnectTimer s clientId (.error e)).1).1,
           (fireReconnectTimer s clientId (.error e)).2
             ++ (runFailures clientId e n (fireReconnectTimer s clientId (.error e)).1).2) := by
      simp only [runFailures]
    rw [hstep] at hrun
    dsimp only at hrun
    obtain ⟨ht1, ht2⟩ := scheduleReconnect_timers
      { s with reconnectTimers := mapErase s.reconnectTimers clientId, nextHandle := s.nextHandle + 1 }
      clientId (a + 1)
    set s1 := scheduleReconnect
      { s with reconnectTimers := mapErase s.reconnectTimers clientId, nextHandle := s.nextHandle + 1 }
      clientId (a + 1) with hs1
    have hclients1 : s1.clients = s.clients := scheduleReconnect_clients _ _ _
    have hconfig1 : s1.config = s.config := scheduleReconnect_config _ _ _
    by_cases hterm : a + 1 < maxAttemptsOrZero s.config
    · have htimer1 : activeTimersFor s1 clientId
          = [(clientId, { timerId := s.nextTimerId, attempt := a + 1 })] := by
        rw [ht1, if_pos hterm]
      have ih' := ih s1 r s.nextTimerId (a + 1)
        (by rw [hclients1]; exact hrec) hdisc (by rw [hconfig1]; exact hauto)
        htimer1 (by rw [hconfig1]; exact hterm) (by rw [hconfig1]; omega)
      rw [hconfig1] at ih'
      refine ⟨?_, ?_, ?_, ?_⟩
      · rw [hrun]
        exact ih'.1
      · rw [hrun]
        dsimp only
        rw [ih'.2.1]
        rw [show maxAttemptsOrZero s.config - a
            = (maxAttemptsOrZero s.config - (a + 1)) + 1 from by omega]
        rw [List.replicate_succ]
        rfl
      · rw [hrun]
        rw [ih'.2.2.1, hclients1]
      · rw [hrun]
        exact ih'.2.2.2
    · have htimer1 : activeTimersFor s1 clientId = [] := by
        rw [ht1, if_neg hterm]
      have hnoop := runFailures_noop clientId e n s1 htimer1
      rw [hnoop] at hrun
      refine ⟨?_, ?_, ?_, ?_⟩
      · rw [hrun]
        exact htimer1
      · rw [hrun]
        rw [show maxAttemptsOrZero s.config - a = 1 from by omega]
        rfl
      · rw [hrun]
        exact hclients1
      · rw [hrun]
        exact hconfig1

/-- C6: scheduling a reconnect timer cancels and replaces any outstanding
timer for the same id — at most one is ever pending per id and timers for
other ids are untouched; and once `maxReconnectAttempts` consecutive
reconnect failures have occurred the machine is terminal: no timer remains
for the id, exactly `maxReconnectAttempts` reconnection failures were
emitted, and a further timer callback can never fire again (until a fresh
disconnect schedules attempt 0 anew). -/
theorem reconnect_terminal_and_single_timer :
    (∀ (s : Manager) (clientId : String) (a : Nat),
      (activeTimersFor (scheduleReconnect s clientId a) clientId).length ≤ 1
      ∧ (∀ t ∈ activeTimersFor (scheduleReconnect s clientId a) clientId,
          t.2.attempt = a ∧ t.2.timerId = s.nextTimerId)
      ∧ (∀ id', id' ≠ clientId →
          activeTimersFor (scheduleReconnect s clientId a) id' = activeTimersFor s id'))
    ∧ (∀ (s : Manager) (clientId : String) (r : ClientRecord) (e : JsError) (tid n : Nat),
      mapFind s.clients clientId = some r → r.connected = false →
      jsTruthyBool s.config.autoReconnect = true →
      activeTimersFor s clientId = [(clientId, { timerId := tid, attempt := 0 })] →
      0 < maxAttemptsOrZero s.config →
      maxAttemptsOrZero s.config ≤ n →
      activeTimersFor (runFailures clientId e n s).1 clientId = []
      ∧ (runFailures clientId e n s).2
          = List.replicate (maxAttemptsOrZero s.config) (.reconnectionError clientId e)
      ∧ fireReconnectTimer (runFailures clientId e n s).1 clientId (.error e)
          = ((runFailures clientId e n s).1, [])) := by
  constructor
  · intro s clientId a
    obtain ⟨h1, h2⟩ := scheduleReconnect_timers s clientId a
    refine ⟨?_, ?_, h2⟩
    · rw [h1]
      split <;> simp
    · intro t ht
      rw [h1] at ht
      by_cases hif : a < maxAttemptsOrZero s.config
      · rw [if_pos hif, List.mem_singleton] at ht
        subst ht
        exact ⟨rfl, rfl⟩
      · rw [if_neg hif] at ht
        exact absurd ht (List.not_mem_nil t)
  · intro s clientId r e tid n hrec hdisc hauto htimer hpos hle
    have h := runFailures_terminal clientId e n s r tid 0 hrec hdisc hauto htimer hpos
      (by omega)
    rw [Nat.sub_zero] at h
    exact ⟨h.1, h.2.1, fire_noop _ clientId _ h.1⟩

/-- Witness for C6: with `autoReconnect` on and `maxReconnectAttempts = 3`, a
transport closure schedules attempt 0; three consecutive failures emit
exactly three `reconnectionError` events, leave no active timer, and a fourth
callback can never fire. -/
theorem reconnect_terminal_witness :
    activeTimersFor
        (runFailures "client-1" (.ext 1) 3 (onTransportClose exManagerAuto "client-1").1).1
        "client-1" = []
    ∧ (runFailures "client-1" (.ext 1) 3 (onTransportClose exManagerAuto "client-1").1).2
        = List.replicate 3 (.reconnectionError "client-1" (.ext 1))
    ∧ fireReconnectTimer
        (runFailures "client-1" (.ext 1) 3 (onTransportClose exManagerAuto "client-1").1).1
        "client-1" (.error (.ext 1))
      = ((runFailures "client-1" (.ext 1) 3 (onTransportClose exManagerAuto "client-1").1).1, [])
    ∧ (activeTimersFor (scheduleReconnect exManagerAuto "client-1" 0) "client-1").length ≤ 1
    ∧ activeTimersFor (scheduleReconnect exManagerAuto "client-1" 0) "other"
        = activeTimersFor exManagerAuto "other" := by
  obtain ⟨p1, p2⟩ := reconnect_terminal_and_single_timer
  obtain ⟨h1, h2, h3⟩ := p2 (onTransportClose exManagerAuto "client-1").1 "client-1"
    (exRecord "alpha" false) (.ext 1) 0 3 (by decide) (by decide) (by decide) (by decide)
    (by decide) (by decide)
  exact ⟨h1, h2, h3, (p1 exManagerAuto "client-1" 0).1,
    (p1 exManagerAuto "client-1" 0).2.2 "other" (by decide)⟩

/-! ## C8: `removeClient` frees the name; ids are never recycled -/

theorem mem_of_mapFind {β : Type} (m : List (String × β)) (k : String) (v : β)
    (h : mapFind m k = some v) : (k, v) ∈ m := by
  unfold mapFind at h
  cases hf : m.find? (fun p => p.1 == k) with
  | none =>
    rw [hf] at h
    exact absurd h (by simp)
  | some p =>
    rw [hf] at h
    have hp2 : p.2 = v := by injection h
    have hkey : p.1 = k := by
      have hps := List.find?_some hf
      simpa using hps
    have hpv : p = (k, v) := by
      obtain ⟨p1, p2⟩ := p
      dsimp at hp2 hkey
      rw [hp2, hkey]
    rw [← hpv]
    exact List.mem_of_find?_eq_some hf

theorem mapFind_mapErase_self {β : Type} (m : List (String × β)) (k : String) :
    mapFind (mapErase m k) k = none := by
  unfold mapFind
  rw [find?_eq_head?_filter, filter_mapErase_self]
  rfl

theorem not_mem_filter_self (x : String) (l : List String) :
    x ∉ l.filter (fun n => n != x) := by
  intro hx
  have h2 := (List.mem_filter.mp hx).2
  simp at h2

theorem removeClient_present (s : Manager) (id : String) (r : ClientRecord)
    (c : Except JsError Unit) (hrec : mapFind s.clients id = some r) :
    (removeClient s id c).result = true
    ∧ (removeClient s id c).state
        = { s with
            reconnectTimers := mapErase s.reconnectTimers id
            serverNames := s.serverNames.filter (fun n => n != r.serverName)
            clients := mapErase s.clients id } := by
  unfold removeClient
  rw [hrec]
  exact ⟨rfl, rfl⟩

theorem mem_mapSet {β : Type} (m : List (String × β)) (k : String) (v : β)
    (p : String × β) (hp : p ∈ mapSet m k v) : p ∈ m ∨ p = (k, v) := by
  unfold mapSet at hp
  by_cases hc : m.any (fun q => q.1 == k)
  · rw [if_pos hc] at hp
    obtain ⟨q, hq, hqe⟩ := List.mem_map.mp hp
    by_cases hqk : q.1 == k
    · right
      rw [← hqe]
      simp [hqk]
    · left
      rw [← hqe]
      have hqk' : (q.1 == k) = false := by simpa using hqk
      simp [hqk']
      exact hq
  · rw [if_neg hc] at hp
    rcases List.mem_append.mp hp with h | h
    · exact Or.inl h
    · right
      simpa using h

/-- The id-assignment invariant holds for a freshly constructed manager. -/
theorem clientIdsWF_mkManager (config : PartialManagerConfig) :
    ClientIdsWF (mkManager config) :=
  fun p hp => absurd hp (List.not_mem_nil p)

/-- The id-assignment invariant is preserved by `addServer`: the new record's
key is minted from the counter, which is then advanced. -/
theorem clientIdsWF_addServer (s : Manager) (t : Nat) (name : String)
    (o : Except JsError Unit) (h : ClientIdsWF s) :
    ClientIdsWF (addServer s t name o).state := by
  unfold addServer
  by_cases hc : s.serverNames.contains name
  · rw [if_pos hc]
    exact h
  · rw [if_neg hc]
    dsimp only
    cases o with
    | error e =>
      dsimp only
      intro p hp
      obtain ⟨k, hk, hid⟩ := h p hp
      exact ⟨k, show k < s.nextClientId + 1 by omega, hid⟩
    | ok _ =>
      dsimp only
      intro p hp
      rcases mem_mapSet _ _ _ p hp with hmem | hpe
      · obtain ⟨k, hk, hid⟩ := h p hmem
        exact ⟨k, show k < s.nextClientId + 1 by omega, hid⟩
      · exact ⟨s.nextClientId, show s.nextClientId < s.nextClientId + 1 by omega, by rw [hpe]⟩

/-- The id-assignment invariant is preserved by `removeClient`. -/
theorem clientIdsWF_removeClient (s : Manager) (id : String) (c : Except JsError Unit)
    (h : ClientIdsWF s) : ClientIdsWF (removeClient s id c).state := by
  cases hrec : mapFind s.clients id with
  | none =>
    unfold removeClient
    rw [hrec]
    exact h
  | some r =>
    rw [(removeClient_present s id r c hrec).2]
    intro p hp
    exact h p (List.mem_filter.mp hp).1

/-- C8: removing a registered record succeeds and frees its `serverName` — a
subsequent `addServer` with that name succeeds and yields the id minted from
the (untouched) counter, which differs from the removed id and from every id
ever stored, since the counter only grows and ids are never recycled; a
second `removeClient` for the same id returns `false` and changes nothing. -/
theorem removeClient_frees_name (s : Manager) (id : String) (r : ClientRecord)
    (c c' : Except JsError Unit) (t : Nat)
    (hWF : ClientIdsWF s) (hrec : mapFind s.clients id = some r) :
    (removeClient s id c).result = true
    ∧ r.serverName ∉ (removeClient s id c).state.serverNames
    ∧ mapFind (removeClient s id c).state.clients id = none
    ∧ (removeClient (removeClient s id c).state id c').result = false
    ∧ (removeClient (removeClient s id c).state id c').state = (removeClient s id c).state
    ∧ (removeClient s id c).state.nextClientId = s.nextClientId
    ∧ (addServer (removeClient s id c).state t r.serverName (.ok ())).result
        = .ok (mkClientId s.nextClientId)
    ∧ mkClientId s.nextClientId ≠ id
    ∧ (∀ p ∈ s.clients, p.1 ≠ mkClientId s.nextClientId) := by
  obtain ⟨hres, hstate⟩ := removeClient_present s id r c hrec
  have hnone : mapFind (removeClient s id c).state.clients id = none := by
    rw [hstate]
    exact mapFind_mapErase_self s.clients id
  have hnotmem : r.serverName ∉ (removeClient s id c).state.serverNames := by
    rw [hstate]
    exact not_mem_filter_self r.serverName s.serverNames
  have hsecond : removeClient (removeClient s id c).state id c'
      = { result := false, state := (removeClient s id c).state, events := [] } := by
    set st := (removeClient s id c).state with hst
    unfold removeClient
    rw [hnone]
  have hcontains : ¬ ((removeClient s id c).state.serverNames.contains r.serverName = true) :=
    fun hx => hnotmem (List.mem_of_elem_eq_true hx)
  have hadd : (addServer (removeClient s id c).state t r.serverName (.ok ())).result
      = .ok (mkClientId ((removeClient s id c).state.nextClientId)) := by
    unfold addServer
    rw [if_neg hcontains]
  have hnext : (removeClient s id c).state.nextClientId = s.nextClientId := by
    rw [hstate]
  have hne : mkClientId s.nextClientId ≠ id := by
    intro heq
    obtain ⟨k, hk, hid⟩ := hWF (id, r) (mem_of_mapFind s.clients id r hrec)
    have hid' : id = mkClientId k := hid
    rw [hid'] at heq
    exact absurd (mkClientId_inj heq) (by omega)
  refine ⟨hres, hnotmem, hnone, by rw [hsecond], by rw [hsecond], hnext,
    by rw [hadd, hnext], hne, ?_⟩
  intro p hp heq
  obtain ⟨k, hk, hid⟩ := hWF p hp
  rw [hid] at heq
  exact absurd (mkClientId_inj heq) (by omega)

/-- Witness for C8: removing `client-1` (server `alpha`) frees the name;
re-adding `alpha` yields the fresh id `client-3`, distinct from the removed
`client-1`; a second removal returns `false`. -/
theorem removeClient_frees_name_witness :
    (removeClient exManagerTwo "client-1" (.ok ())).result = true
    ∧ "alpha" ∉ (removeClient exManagerTwo "client-1" (.ok ())).state.serverNames
    ∧ mapFind (removeClient exManagerTwo "client-1" (.ok ())).state.clients "client-1" = none
    ∧ (removeClient (removeClient exManagerTwo "client-1" (.ok ())).state "client-1"
        (.ok ())).result = false
    ∧ (addServer (removeClient exManagerTwo "client-1" (.ok ())).state 7 "alpha"
        (.ok ())).result = .ok (mkClientId 3)
    ∧ mkClientId 3 ≠ "client-1" := by
  obtain ⟨h1, h2, h3, h4, _, _, h7, h8, _⟩ := removeClient_frees_name exManagerTwo "client-1"
    (exRecord "alpha" true) (.ok ()) (.ok ()) 7
    (by
      intro p hp
      rcases List.mem_cons.mp hp with rfl | hp2
      · exact ⟨1, by decide, by decide⟩
      · rcases List.mem_cons.mp hp2 with rfl | hp3
        · exact ⟨2, by decide, by decide⟩
        · exact absurd hp3 (List.not_mem_nil p))
    (by decide)
  exact ⟨h1, h2, h3, h4, h7, h8⟩

end MCPClientManager
